import Mathlib

/-!
Shallow embedding of the release-automation scripts of the `envgen`
repository (`scripts/version_bump.py`, `scripts/homebrew/tap_release.py`,
`scripts/release/validate_tag.py`) together with proofs about the embedded
code.

Modelling conventions, used throughout:

* Python strings are Lean `String`s; character-level work happens on
  `String.data : List Char`.  `\d` and `\s` of the Python regexes are
  modelled as the ASCII digits and ASCII whitespace (`Char.isWhitespace`).
* Text files are represented as their list of lines, i.e. the image of the
  file content under `String.splitOn "\n"`; re-joining with
  `String.intercalate "\n"` recovers the content.  A file that ends in a
  newline therefore has `""` as its last line entry.
* External collaborators (the TOML parser `tomllib`, `json` serialisation
  and parsing, git/gh/brew subprocesses, the network) are passed in as
  oracle function parameters; the script logic itself is translated
  faithfully from the Python source.
* File mutations are recorded in an explicit write log (`FileWrite`), since
  several claims are about which writes happen and how.
-/

namespace Envgen

/-! ## Character and string helpers -/

/-- ASCII decimal digits, the model of the regex class `\d`. -/
def isDig (c : Char) : Bool :=
  (c = '0') || (c = '1') || (c = '2') || (c = '3') || (c = '4') ||
  (c = '5') || (c = '6') || (c = '7') || (c = '8') || (c = '9')

/-- Numeric value of a digit character (Python `int` on a single digit). -/
def digitVal (c : Char) : Nat := c.toNat - '0'.toNat

/-- Digit character for a value below ten (Python decimal formatting). -/
def digitChar (n : Nat) : Char :=
  match n with
  | 0 => '0' | 1 => '1' | 2 => '2' | 3 => '3' | 4 => '4'
  | 5 => '5' | 6 => '6' | 7 => '7' | 8 => '8' | _ => '9'

/-- Value of a digit string read most-significant first (Python `int`). -/
def digitsVal (ds : List Char) : Nat :=
  ds.foldl (fun a c => 10 * a + digitVal c) 0

/-- Fuel-indexed decimal rendering; `fuel` only has to exceed the number
being rendered for the result to be its decimal digit list. -/
def natReprAux (fuel n : Nat) : List Char :=
  match fuel with
  | 0 => []
  | fuel + 1 =>
    if n < 10 then [digitChar n]
    else natReprAux fuel (n / 10) ++ [digitChar (n % 10)]

/-- Decimal digit list of a natural number (Python `str`/f-string formatting
of a non-negative `int`). -/
def natReprChars (n : Nat) : List Char := natReprAux (n + 1) n

/-- Decimal string of a natural number. -/
def natStr (n : Nat) : String := ⟨natReprChars n⟩

/-- Python `str.strip()` (ASCII whitespace model). -/
def pyStrip (s : String) : String :=
  ⟨((s.data.dropWhile Char.isWhitespace).reverse.dropWhile Char.isWhitespace).reverse⟩

/-- Python `str.rstrip()` (ASCII whitespace model). -/
def pyRstrip (s : String) : String :=
  ⟨(s.data.reverse.dropWhile Char.isWhitespace).reverse⟩

/-- Python `l.startswith(p)`. -/
def startsWithStr (l p : String) : Bool := p.data.isPrefixOf l.data

/-- Python `l.endswith(p)`. -/
def endsWithStr (l p : String) : Bool := p.data.isSuffixOf l.data

/-- Join file lines back into file content (inverse of splitting on
newlines). -/
def joinLines (ls : List String) : String := String.intercalate "\n" ls

/-! ## Semantic versions (`version_bump.py`)

`SEMVER_RE = ^(0|[1-9]\d*)\.(0|[1-9]\d*)\.(0|[1-9]\d*)$`, used through
`validate_semver` / `bump_semver`.  The regex is deterministic (each `\d*`
is greedy and followed by a non-digit delimiter), so it is translated as a
recursive-descent parser returning the three numeric components. -/

/-- Greedy run of digits (`\d*`): the longest digit prefix and the rest. -/
def takeDigits : List Char → List Char × List Char
  | [] => ([], [])
  | c :: cs =>
    if isDig c then
      let p := takeDigits cs
      (c :: p.1, p.2)
    else ([], c :: cs)

/-- One component `(0|[1-9]\d*)` of `SEMVER_RE`, with its numeric value and
the unconsumed rest.  A leading `'0'` matches only the literal `0`
alternative, which is how the regex rejects leading zeros. -/
def parseSemComp : List Char → Option (Nat × List Char)
  | [] => none
  | c :: cs =>
    if c = '0' then some (0, cs)
    else if isDig c then
      let p := takeDigits cs
      some (digitsVal (c :: p.1), p.2)
    else none

/-- Full match of `SEMVER_RE` against a character list: the three numeric
components, or `none` when the regex does not match. -/
def semverChars (cs : List Char) : Option (Nat × Nat × Nat) :=
  match parseSemComp cs with
  | none => none
  | some (a, r1) =>
    match r1 with
    | [] => none
    | d1 :: cs1 =>
      if d1 = '.' then
        match parseSemComp cs1 with
        | none => none
        | some (b, r2) =>
          match r2 with
          | [] => none
          | d2 :: cs2 =>
            if d2 = '.' then
              match parseSemComp cs2 with
              | none => none
              | some (c, r3) =>
                match r3 with
                | [] => some (a, b, c)
                | _ :: _ => none
            else none
      else none

/-- Python `validate_semver`: the version string itself on a full
`SEMVER_RE` match, the `BumpError` message otherwise. -/
def validate_semver (version : String) : Except String String :=
  match semverChars version.data with
  | some _ => .ok version
  | none => .error ("Invalid version '" ++ version ++ "'. Expected strict semver X.Y.Z")

/-- Canonical `X.Y.Z` rendering of a version triple (the f-string
`f"{major}.{minor}.{patch}"` of `bump_semver`). -/
def renderVersion (a b c : Nat) : String :=
  ⟨natReprChars a ++ '.' :: natReprChars b ++ '.' :: natReprChars c⟩

/-- Python `bump_semver`: validate, split into integer components, bump the
requested level, re-render.  The two `fail` messages are the ones in the
source. -/
def bump_semver (version level : String) : Except String String :=
  match semverChars version.data with
  | none => .error ("Invalid version '" ++ version ++ "'. Expected strict semver X.Y.Z")
  | some (a, b, c) =>
    if level = "patch" then .ok (renderVersion a b (c + 1))
    else if level = "minor" then .ok (renderVersion a (b + 1) 0)
    else if level = "major" then .ok (renderVersion (a + 1) 0 0)
    else .error ("Unsupported level '" ++ level ++ "'. Use patch|minor|major")

/-- Python `resolve_next_version`: exactly one of `--level`/`--version` must
be given; an explicit version is validated, a level is applied to the
current version. -/
def resolve_next_version (current : String) (level version : Option String) :
    Except String String :=
  match level, version with
  | some _, some _ => .error "Provide exactly one of --level or --version"
  | none, none => .error "Provide exactly one of --level or --version"
  | none, some v => validate_semver v
  | some l, none => bump_semver current l

/-! ## Tag patterns (`tap_release.py`, `release/validate_tag.py`) -/

/-- Head-of-list digit test used to state greedy-run boundaries. -/
def headNotDig : List Char → Bool
  | [] => true
  | c :: _ => !(isDig c)

/-- The `v\d+\.\d+\.\d+` core shared by both tag regexes: on success, the
captured `X.Y.Z` characters and the unconsumed rest. -/
def matchTagCore (t : List Char) : Option (List Char × List Char) :=
  match t with
  | [] => none
  | v :: cs =>
    if v = 'v' then
      let p1 := takeDigits cs
      if p1.1 = [] then none
      else
        match p1.2 with
        | [] => none
        | a1 :: r1 =>
          if a1 = '.' then
            let p2 := takeDigits r1
            if p2.1 = [] then none
            else
              match p2.2 with
              | [] => none
              | a2 :: r2 =>
                if a2 = '.' then
                  let p3 := takeDigits r2
                  if p3.1 = [] then none
                  else some (p1.1 ++ '.' :: p2.1 ++ '.' :: p3.1, p3.2)
                else none
          else none
    else none

/-- The optional suffix `(?:[.-].*)?$` of `TAG_PATTERN` in `tap_release.py`
under `fullmatch`: empty, or a `.`/`-` followed by newline-free text. -/
def tagSuffixOk : List Char → Bool
  | [] => true
  | c :: cs => (c = '.' || c = '-') && cs.all (· ≠ '\n')

/-- Python `parse_tag` of `tap_release.py`: strip the tag, fully match
`^v(\d+\.\d+\.\d+)(?:[.-].*)?$`, and return the captured version. -/
def parse_tag (tag : String) : Except String String :=
  match matchTagCore (pyStrip tag).data with
  | some (core, rest) =>
    if tagSuffixOk rest then .ok ⟨core⟩
    else .error ("Invalid tag '" ++ tag ++ "'. Expected vX.Y.Z")
  | none => .error ("Invalid tag '" ++ tag ++ "'. Expected vX.Y.Z")

/-- The trailing `.*$` of `TAG_PATTERN` in `release/validate_tag.py` under
`re.match`: the rest of the line may be anything without a newline, and one
final newline may remain unconsumed (`$` matches before a final newline). -/
def restOkForLineMatch (r : List Char) : Bool :=
  r.all (· ≠ '\n') || (r.getLast? = some '\n' && r.dropLast.all (· ≠ '\n'))

/-- Python `TAG_PATTERN.match(tag)` of `release/validate_tag.py`
(`^v\d+\.\d+\.\d+.*$`, anchored at the start only). -/
def tagPatternOk (t : List Char) : Bool :=
  match matchTagCore t with
  | some (_, rest) => restOkForLineMatch rest
  | none => false

/-! ## Decimal rendering and parsing facts -/

theorem isDig_digitChar (n : Nat) (h : n < 10) : isDig (digitChar n) = true := by
  interval_cases n <;> decide

theorem digitVal_digitChar (n : Nat) (h : n < 10) : digitVal (digitChar n) = n := by
  interval_cases n <;> decide

theorem digitChar_ne_zero (n : Nat) (h1 : 1 ≤ n) (h2 : n < 10) : digitChar n ≠ '0' := by
  interval_cases n <;> decide

theorem isDig_iff (c : Char) : isDig c = true ↔
    c = '0' ∨ c = '1' ∨ c = '2' ∨ c = '3' ∨ c = '4' ∨
    c = '5' ∨ c = '6' ∨ c = '7' ∨ c = '8' ∨ c = '9' := by
  simp only [isDig, Bool.or_eq_true, decide_eq_true_eq]
  tauto

theorem digitChar_digitVal (c : Char) (h : isDig c = true) :
    digitChar (digitVal c) = c := by
  rcases (isDig_iff c).mp h with rfl | rfl | rfl | rfl | rfl | rfl | rfl | rfl | rfl | rfl <;>
    decide

theorem digitVal_lt_ten (c : Char) (h : isDig c = true) : digitVal c < 10 := by
  rcases (isDig_iff c).mp h with rfl | rfl | rfl | rfl | rfl | rfl | rfl | rfl | rfl | rfl <;>
    decide

theorem digitVal_pos (c : Char) (h : isDig c = true) (h0 : c ≠ '0') :
    1 ≤ digitVal c := by
  rcases (isDig_iff c).mp h with rfl | rfl | rfl | rfl | rfl | rfl | rfl | rfl | rfl | rfl <;>
    first | exact absurd rfl h0 | decide

theorem digitsVal_cons (c : Char) (cs : List Char) :
    digitsVal (c :: cs) = (cs.foldl (fun a d => 10 * a + digitVal d) (digitVal c)) := by
  simp [digitsVal]

theorem digitsVal_append_singleton (xs : List Char) (d : Char) :
    digitsVal (xs ++ [d]) = 10 * digitsVal xs + digitVal d := by
  simp [digitsVal, List.foldl_append]

theorem foldl_digits_ge (xs : List Char) : ∀ a : Nat, 1 ≤ a →
    1 ≤ xs.foldl (fun a d => 10 * a + digitVal d) a := by
  induction xs with
  | nil => intro a ha; simpa using ha
  | cons x xs ih =>
    intro a ha
    simp only [List.foldl_cons]
    exact ih _ (by omega)

theorem digitsVal_head_pos (c : Char) (cs : List Char) (h : isDig c = true)
    (h0 : c ≠ '0') : 1 ≤ digitsVal (c :: cs) := by
  rw [digitsVal_cons]
  exact foldl_digits_ge cs _ (digitVal_pos c h h0)

theorem natReprAux_congr : ∀ f g n : Nat, n < f → n < g →
    natReprAux f n = natReprAux g n := by
  intro f
  induction f with
  | zero => intro g n h; omega
  | succ f ih =>
    intro g n hf hg
    cases g with
    | zero => omega
    | succ g =>
      simp only [natReprAux]
      by_cases h10 : n < 10
      · simp [h10]
      · have hdiv : n / 10 < n := Nat.div_lt_self (by omega) (by omega)
        simp only [if_neg h10]
        rw [ih g (n / 10) (by omega) (by omega)]

theorem natReprAux_spec : ∀ f n : Nat, n < f →
    (natReprAux f n).all isDig = true ∧ natReprAux f n ≠ [] ∧
    digitsVal (natReprAux f n) = n ∧
    (∀ c cs, natReprAux f n = c :: cs → 1 ≤ n → c ≠ '0') := by
  intro f
  induction f with
  | zero => intro n h; omega
  | succ f ih =>
    intro n hf
    by_cases h10 : n < 10
    · refine ⟨?_, ?_, ?_, ?_⟩
      · simp [natReprAux, h10, isDig_digitChar n h10]
      · simp [natReprAux, h10]
      · simp [natReprAux, h10, digitsVal, digitVal_digitChar n h10]
      · intro c cs hcc hn
        simp only [natReprAux, if_pos h10] at hcc
        cases hcc
        exact fun h => (digitChar_ne_zero n hn h10) (by simp_all)
    · have hdiv : n / 10 < n := Nat.div_lt_self (by omega) (by omega)
      obtain ⟨hall, hne, hval, hhd⟩ := ih (n / 10) (by omega)
      have hmod : n % 10 < 10 := Nat.mod_lt _ (by omega)
      refine ⟨?_, ?_, ?_, ?_⟩
      · simp [natReprAux, h10, List.all_append, hall, isDig_digitChar _ hmod]
      · simp [natReprAux, h10]
      · simp only [natReprAux, if_neg h10]
        rw [digitsVal_append_singleton, hval, digitVal_digitChar _ hmod]
        omega
      · intro c cs hcc _
        simp only [natReprAux, if_neg h10] at hcc
        cases hd : natReprAux f (n / 10) with
        | nil => exact absurd hd hne
        | cons x xs =>
          rw [hd] at hcc
          simp only [List.cons_append, List.cons.injEq] at hcc
          exact hcc.1 ▸ hhd x xs hd (by omega)

theorem natRepr_spec (n : Nat) :
    (natReprChars n).all isDig = true ∧ natReprChars n ≠ [] ∧
    digitsVal (natReprChars n) = n ∧
    (∀ c cs, natReprChars n = c :: cs → 1 ≤ n → c ≠ '0') :=
  natReprAux_spec (n + 1) n (by omega)

theorem takeDigits_append (ds rest : List Char) (hds : ds.all isDig = true)
    (hr : headNotDig rest = true) : takeDigits (ds ++ rest) = (ds, rest) := by
  induction ds with
  | nil =>
    cases rest with
    | nil => rfl
    | cons c cs =>
      simp only [headNotDig, Bool.not_eq_true'] at hr
      simp [takeDigits, hr]
  | cons d ds ih =>
    simp only [List.all_cons, Bool.and_eq_true] at hds
    simp [takeDigits, hds.1, ih hds.2]

theorem takeDigits_sound : ∀ (cs ds rest : List Char), takeDigits cs = (ds, rest) →
    cs = ds ++ rest ∧ ds.all isDig = true ∧ headNotDig rest = true := by
  intro cs
  induction cs with
  | nil => intro ds rest h; simp only [takeDigits] at h; cases h; simp [headNotDig]
  | cons c cs ih =>
    intro ds rest h
    simp only [takeDigits] at h
    by_cases hc : isDig c
    · rw [if_pos hc] at h
      obtain ⟨hds, hrest⟩ := Prod.mk.injEq .. ▸ h
      cases hp : takeDigits cs with
      | mk ds' rest' =>
        obtain ⟨h1, h2, h3⟩ := ih ds' rest' hp
        rw [hp] at h
        simp only at h
        cases h
        simp [h1, hc, h2, h3]
    · rw [if_neg hc] at h
      cases h
      simp only [Bool.not_eq_true] at hc
      simp [headNotDig, hc, List.nil_append]

theorem parseSemComp_natRepr (n : Nat) (rest : List Char)
    (hr : headNotDig rest = true) :
    parseSemComp (natReprChars n ++ rest) = some (n, rest) := by
  obtain ⟨hall, hne, hval, hhd⟩ := natRepr_spec n
  by_cases hn : n = 0
  · subst hn
    have : natReprChars 0 = ['0'] := rfl
    rw [this]
    rfl
  · cases hd : natReprChars n with
    | nil => exact absurd hd hne
    | cons c cs =>
      have hc0 : c ≠ '0' := hhd c cs hd (by omega)
      rw [hd] at hall hval
      simp only [List.all_cons, Bool.and_eq_true] at hall
      simp only [List.cons_append, parseSemComp, if_neg hc0, hall.1, if_pos]
      rw [takeDigits_append cs rest hall.2 hr]
      simp [hval]

theorem natRepr_digitsVal (c : Char) (ds : List Char) (hc : isDig c = true)
    (hc0 : c ≠ '0') (hds : ds.all isDig = true) :
    natReprChars (digitsVal (c :: ds)) = c :: ds := by
  induction ds using List.reverseRecOn with
  | nil =>
    have h1 : 1 ≤ digitVal c := digitVal_pos c hc hc0
    have h2 : digitVal c < 10 := digitVal_lt_ten c hc
    have hv : digitsVal [c] = digitVal c := by simp [digitsVal]
    rw [hv]
    have : natReprChars (digitVal c) = [digitChar (digitVal c)] := by
      simp only [natReprChars, natReprAux, if_pos h2]
    rw [this, digitChar_digitVal c hc]
  | append_singleton xs d ih =>
    simp only [List.all_append, List.all_cons, List.all_nil, Bool.and_eq_true] at hds
    have ihx := ih hds.1
    have hvpos : 1 ≤ digitsVal (c :: xs) := digitsVal_head_pos c xs hc hc0
    have hdlt : digitVal d < 10 := digitVal_lt_ten d (by simpa using hds.2)
    have hval : digitsVal (c :: (xs ++ [d])) = 10 * digitsVal (c :: xs) + digitVal d := by
      have : c :: (xs ++ [d]) = (c :: xs) ++ [d] := by simp
      rw [this, digitsVal_append_singleton]
    rw [hval]
    set v := digitsVal (c :: xs) with hv
    have hN : ¬ (10 * v + digitVal d < 10) := by omega
    have hdiv : (10 * v + digitVal d) / 10 = v := by omega
    have hmod : (10 * v + digitVal d) % 10 = digitVal d := by omega
    have hstep : natReprChars (10 * v + digitVal d) =
        natReprAux (10 * v + digitVal d) ((10 * v + digitVal d) / 10) ++
          [digitChar ((10 * v + digitVal d) % 10)] := by
      simp only [natReprChars, natReprAux, if_neg hN]
    rw [hstep, hdiv, hmod]
    have hcongr : natReprAux (10 * v + digitVal d) v = natReprChars v :=
      natReprAux_congr _ _ v (by omega) (by omega)
    rw [hcongr, ihx, digitChar_digitVal d (by simpa using hds.2)]
    simp

theorem parseSemComp_sound (cs : List Char) (n : Nat) (rest : List Char)
    (h : parseSemComp cs = some (n, rest)) : cs = natReprChars n ++ rest := by
  cases cs with
  | nil => simp [parseSemComp] at h
  | cons c cs' =>
    simp only [parseSemComp] at h
    by_cases hc0 : c = '0'
    · rw [if_pos hc0] at h
      simp only [Option.some.injEq, Prod.mk.injEq] at h
      subst hc0
      rw [← h.1, ← h.2]
      rfl
    · rw [if_neg hc0] at h
      by_cases hc : isDig c
      · rw [if_pos hc] at h
        cases hp : takeDigits cs' with
        | mk ds' rest' =>
          rw [hp] at h
          simp only [Option.some.injEq, Prod.mk.injEq] at h
          obtain ⟨h1, h2, h3⟩ := takeDigits_sound cs' ds' rest' hp
          rw [← h.1, natRepr_digitsVal c ds' hc hc0 h2, h1, ← h.2]
          simp
      · simp [if_neg hc] at h

theorem renderVersion_data (a b c : Nat) :
    (renderVersion a b c).data =
      natReprChars a ++ '.' :: natReprChars b ++ '.' :: natReprChars c := rfl

theorem semverChars_render (a b c : Nat) :
    semverChars (renderVersion a b c).data = some (a, b, c) := by
  rw [renderVersion_data]
  have hdot : ∀ t : List Char, headNotDig ('.' :: t) = true := fun t => by
    simp [headNotDig, isDig]
  have h1 := parseSemComp_natRepr a ('.' :: natReprChars b ++ '.' :: natReprChars c)
    (hdot _)
  have h2 := parseSemComp_natRepr b ('.' :: natReprChars c) (hdot _)
  have h3 := parseSemComp_natRepr c [] (by simp [headNotDig])
  simp only [List.append_nil] at h3
  rw [show natReprChars a ++ '.' :: natReprChars b ++ '.' :: natReprChars c
      = natReprChars a ++ ('.' :: natReprChars b ++ '.' :: natReprChars c) from by simp]
  simp only [semverChars, h1]
  simp [h2, h3]

theorem semverChars_sound (cs : List Char) (a b c : Nat)
    (h : semverChars cs = some (a, b, c)) : cs = (renderVersion a b c).data := by
  simp only [semverChars] at h
  split at h
  · exact absurd h (by simp)
  next a1 r1 heq1 =>
    split at h
    · exact absurd h (by simp)
    next d1 cs1 =>
      split at h
      swap
      · exact absurd h (by simp)
      next hd1 =>
        split at h
        · exact absurd h (by simp)
        next b1 r2 heq2 =>
          split at h
          · exact absurd h (by simp)
          next d2 cs2 =>
            split at h
            swap
            · exact absurd h (by simp)
            next hd2 =>
              split at h
              · exact absurd h (by simp)
              next c1 r3 heq3 =>
                split at h
                swap
                · exact absurd h (by simp)
                next =>
                  simp only [Option.some.injEq, Prod.mk.injEq] at h
                  obtain ⟨rfl, rfl, rfl⟩ := h
                  subst hd1; subst hd2
                  have e1 := parseSemComp_sound cs a1 ('.' :: cs1) heq1
                  have e2 := parseSemComp_sound cs1 b1 ('.' :: cs2) heq2
                  have e3 := parseSemComp_sound cs2 c1 [] heq3
                  simp only [List.append_nil] at e3
                  rw [renderVersion_data, e1, e2, e3]
                  simp

/-! ## Tag-pattern facts -/

theorem tagSuffixOk_headNotDig (r : List Char) (h : tagSuffixOk r = true) :
    headNotDig r = true := by
  cases r with
  | nil => rfl
  | cons c cs =>
    simp only [tagSuffixOk, Bool.and_eq_true, Bool.or_eq_true, decide_eq_true_eq] at h
    rcases h.1 with rfl | rfl <;> simp [headNotDig, isDig]

theorem matchTagCore_append (d1 d2 d3 r : List Char)
    (h1 : d1 ≠ []) (h1d : d1.all isDig = true)
    (h2 : d2 ≠ []) (h2d : d2.all isDig = true)
    (h3 : d3 ≠ []) (h3d : d3.all isDig = true)
    (hr : headNotDig r = true) :
    matchTagCore ('v' :: (d1 ++ '.' :: d2 ++ '.' :: d3 ++ r)) =
      some (d1 ++ '.' :: d2 ++ '.' :: d3, r) := by
  have t1 : takeDigits (d1 ++ '.' :: (d2 ++ '.' :: (d3 ++ r)))
      = (d1, '.' :: (d2 ++ '.' :: (d3 ++ r))) :=
    takeDigits_append _ _ h1d (by simp [headNotDig, isDig])
  have t2 : takeDigits (d2 ++ '.' :: (d3 ++ r)) = (d2, '.' :: (d3 ++ r)) :=
    takeDigits_append _ _ h2d (by simp [headNotDig, isDig])
  have t3 : takeDigits (d3 ++ r) = (d3, r) := takeDigits_append _ _ h3d hr
  simp [matchTagCore, t1, t2, t3, h1, h2, h3]

/-! ## Claim C5: bump level algebra -/

/-- Claim C5: for every valid version `X.Y.Z`, bumping `patch` twice raises
the patch component by exactly two while leaving major and minor unchanged,
bumping `minor` increments minor and resets patch to zero, bumping `major`
increments major and resets minor and patch to zero, and every level outside
`patch`/`minor`/`major` is rejected by `bump_semver`. -/
theorem c5_bump_semver_algebra (s : String) (M N P : Nat)
    (h : semverChars s.data = some (M, N, P)) :
    bump_semver s "patch" = .ok (renderVersion M N (P + 1)) ∧
    bump_semver (renderVersion M N (P + 1)) "patch"
      = .ok (renderVersion M N (P + 2)) ∧
    semverChars (renderVersion M N (P + 2)).data = some (M, N, P + 2) ∧
    bump_semver s "minor" = .ok (renderVersion M (N + 1) 0) ∧
    bump_semver s "major" = .ok (renderVersion (M + 1) 0 0) ∧
    ∀ lvl : String, lvl ≠ "patch" → lvl ≠ "minor" → lvl ≠ "major" →
      bump_semver s lvl =
        .error ("Unsupported level '" ++ lvl ++ "'. Use patch|minor|major") := by
  refine ⟨?_, ?_, ?_, ?_, ?_, ?_⟩
  · simp [bump_semver, h]
  · simp [bump_semver, semverChars_render, show P + 1 + 1 = P + 2 from rfl]
  · exact semverChars_render M N (P + 2)
  · simp [bump_semver, h]
  · simp [bump_semver, h]
  · intro lvl hp hm hM
    simp [bump_semver, h, hp, hm, hM]

/-- Witness for C5 at the concrete version `1.2.3`. -/
theorem c5_bump_semver_algebra_witness :
    semverChars ("1.2.3" : String).data = some (1, 2, 3) ∧
    bump_semver "1.2.3" "patch" = .ok (renderVersion 1 2 4) ∧
    bump_semver (renderVersion 1 2 4) "patch" = .ok (renderVersion 1 2 5) ∧
    bump_semver "1.2.3" "minor" = .ok (renderVersion 1 3 0) ∧
    bump_semver "1.2.3" "major" = .ok (renderVersion 2 0 0) ∧
    bump_semver "1.2.3" "rc" =
      .error ("Unsupported level '" ++ "rc" ++ "'. Use patch|minor|major") := by
  have h : semverChars ("1.2.3" : String).data = some (1, 2, 3) := by decide
  obtain ⟨a, b, _, c, d, e⟩ := c5_bump_semver_algebra "1.2.3" 1 2 3 h
  exact ⟨h, a, by simpa using b, c, d, e "rc" (by decide) (by decide) (by decide)⟩

/-! ## Claim C4: which strings the version/tag validators accept -/

/-- Claim C4 counterexample: the claim says a pre-release suffix such as in
`v1.2.3-rc1` is rejected as invalid everywhere, but `parse_tag` of
`tap_release.py` accepts it (its regex has the optional `(?:[.-].*)?`
suffix group) and extracts `1.2.3`. -/
theorem c4_prerelease_tag_accepted_cex :
    parse_tag "v1.2.3-rc1" = Except.ok "1.2.3" := by rfl

/-- Claim C4 amended: `validate_semver` (SEMVER_RE) accepts exactly the
canonically rendered `X.Y.Z` triples — no leading zeros and no
pre-release/build suffix ever; but the tag validators are looser:
`parse_tag` of `tap_release.py` accepts `v` + three dot-separated digit runs
(leading zeros allowed) followed by an optional suffix that starts with `.`
or `-`, capturing the numeric core, and `TAG_PATTERN` of
`release/validate_tag.py` accepts `v` + three digit runs followed by any
newline-free suffix. -/
theorem c4_amended_validators :
    (∀ (s : String) (a b c : Nat), semverChars s.data = some (a, b, c) →
        s = renderVersion a b c) ∧
    (∀ a b c : Nat,
        validate_semver (renderVersion a b c) = .ok (renderVersion a b c)) ∧
    (∀ (t : String) (d1 d2 d3 r : List Char),
        t.data = 'v' :: (d1 ++ '.' :: d2 ++ '.' :: d3 ++ r) →
        pyStrip t = t →
        d1 ≠ [] → d1.all isDig = true → d2 ≠ [] → d2.all isDig = true →
        d3 ≠ [] → d3.all isDig = true → tagSuffixOk r = true →
        parse_tag t = .ok ⟨d1 ++ '.' :: d2 ++ '.' :: d3⟩) ∧
    (∀ (d1 d2 d3 r : List Char),
        d1 ≠ [] → d1.all isDig = true → d2 ≠ [] → d2.all isDig = true →
        d3 ≠ [] → d3.all isDig = true → headNotDig r = true →
        restOkForLineMatch r = true →
        tagPatternOk ('v' :: (d1 ++ '.' :: d2 ++ '.' :: d3 ++ r)) = true) := by
  refine ⟨?_, ?_, ?_, ?_⟩
  · intro s a b c h
    have := semverChars_sound s.data a b c h
    cases s
    exact congrArg String.mk this
  · intro a b c
    simp [validate_semver, semverChars_render]
  · intro t d1 d2 d3 r ht hstrip h1 h1d h2 h2d h3 h3d hsuf
    have hcore := matchTagCore_append d1 d2 d3 r h1 h1d h2 h2d h3 h3d
      (tagSuffixOk_headNotDig r hsuf)
    simp only [parse_tag, hstrip, ht, hcore, hsuf, if_pos]
  · intro d1 d2 d3 r h1 h1d h2 h2d h3 h3d hnd hrest
    have hcore := matchTagCore_append d1 d2 d3 r h1 h1d h2 h2d h3 h3d hnd
    simp only [tagPatternOk, hcore, hrest]

/-- Witness for the amended C4 at concrete inputs, including the accepted
pre-release tag `v1.2.3-rc1`. -/
theorem c4_amended_validators_witness :
    ("1.2.3" : String) = renderVersion 1 2 3 ∧
    validate_semver (renderVersion 1 2 3) = .ok (renderVersion 1 2 3) ∧
    parse_tag "v1.2.3-rc1" = .ok ⟨['1'] ++ '.' :: ['2'] ++ '.' :: ['3']⟩ ∧
    tagPatternOk ('v' :: (['1'] ++ '.' :: ['2'] ++ '.' :: ['3'] ++ "-rc1".data))
      = true := by
  refine ⟨c4_amended_validators.1 "1.2.3" 1 2 3 (by decide),
    c4_amended_validators.2.1 1 2 3,
    c4_amended_validators.2.2.1 "v1.2.3-rc1" ['1'] ['2'] ['3'] "-rc1".data
      (by decide) (by decide) (by decide) (by decide) (by decide) (by decide)
      (by decide) (by decide) (by decide),
    c4_amended_validators.2.2.2 ['1'] ['2'] ['3'] "-rc1".data
      (by decide) (by decide) (by decide) (by decide) (by decide) (by decide)
      (by decide) (by decide)⟩

/-! ## Schema version marker (`update_schema_changelog_version`)

Python: `re.subn(r'("x-envgen-schema-version"\s*:\s*")([^"]+)(")', repl,
text, count=1)`, failing when the returned count is not 1.  The pattern is
deterministic, so it is translated as a left-to-right scan that replaces
the leftmost match. -/

/-- The literal key part `"x-envgen-schema-version"` of the marker regex
(including both quotes). -/
def markerKey : List Char := "\"x-envgen-schema-version\"".data

/-- Strip an exact prefix, returning the rest on success. -/
def stripPrefixChars : List Char → List Char → Option (List Char)
  | [], cs => some cs
  | _ :: _, [] => none
  | p :: ps, c :: cs => if c = p then stripPrefixChars ps cs else none

/-- Try to match the marker regex at the start of `cs`: on success, the
text of capture group 1 (key, whitespace, colon, whitespace, opening
quote), the value (group 2, `[^"]+`), and the input after the closing
quote. -/
def matchMarkerAt (cs : List Char) : Option (List Char × List Char × List Char) :=
  match stripPrefixChars markerKey cs with
  | none => none
  | some r1 =>
    let ws1 := r1.takeWhile Char.isWhitespace
    let r2 := r1.dropWhile Char.isWhitespace
    match r2 with
    | ':' :: r3 =>
      let ws2 := r3.takeWhile Char.isWhitespace
      let r4 := r3.dropWhile Char.isWhitespace
      match r4 with
      | '"' :: r5 =>
        let v := r5.takeWhile (fun c => c ≠ '"')
        let r6 := r5.dropWhile (fun c => c ≠ '"')
        if v = [] then none
        else
          match r6 with
          | '"' :: r7 => some (markerKey ++ ws1 ++ ':' :: ws2 ++ ['"'], v, r7)
          | _ => none
      | _ => none
    | _ => none

/-- Replace the leftmost marker match (the `count=1` substitution of
`re.subn`), or `none` when the pattern does not occur. -/
def subMarkerFirst (newV : List Char) : List Char → Option (List Char)
  | [] => none
  | c :: cs =>
    match matchMarkerAt (c :: cs) with
    | some (g1, _, rest) => some (g1 ++ newV ++ '"' :: rest)
    | none => (subMarkerFirst newV cs).map (fun t => c :: t)

/-- Number of positions at which the marker regex matches.  Matches of this
pattern can never overlap (the value class `[^"]+` excludes the quote that
every match starts with), so this equals the number of marker occurrences
in the text. -/
def countMarkerPos (cs : List Char) : Nat :=
  ((List.range (cs.length + 1)).filter
    (fun i => (matchMarkerAt (cs.drop i)).isSome)).length

/-- Python `update_schema_changelog_version`: substitute the first marker
occurrence (failing only when there is none), then re-parse as JSON via the
external parser, modelled as the oracle `jsonErr` (`none` = parses,
`some e` = `JSONDecodeError` with message `e`). -/
def update_schema_changelog_version (schemaJsonText newVersion : String)
    (jsonErr : String → Option String) : Except String String :=
  match subMarkerFirst newVersion.data schemaJsonText.data with
  | none =>
    .error "Schema JSON does not contain exactly one \"x-envgen-schema-version\" field"
  | some cs =>
    match jsonErr ⟨cs⟩ with
    | none => .ok ⟨cs⟩
    | some e => .error ("Updated schema JSON is invalid: " ++ e)

/-- A schema document containing the marker twice. -/
def dupMarkerSchema : String :=
  "\x7b\"x-envgen-schema-version\": \"1.0.0\", \"nested\": \x7b\"x-envgen-schema-version\": \"1.0.0\"\x7d\x7d"

/-- Claim C3 (code bug evidence): the source's own error message promises
failure unless the marker occurs exactly once, but because `re.subn` is
called with `count=1` the count can never exceed 1, so a document carrying
the marker twice is accepted and only its first occurrence is rewritten. -/
theorem c3_duplicate_marker_accepted :
    countMarkerPos dupMarkerSchema.data = 2 ∧
    update_schema_changelog_version dupMarkerSchema "2.0.0" (fun _ => none) =
      .ok "\x7b\"x-envgen-schema-version\": \"2.0.0\", \"nested\": \x7b\"x-envgen-schema-version\": \"1.0.0\"\x7d\x7d" := by
  exact ⟨by decide, by rfl⟩

/-! ## Changelog rotation (`rotate_changelog`)

The changelog text is represented by its list of lines (split on `"\n"`).
`UNRELEASED_RE = (?ms)^## \[Unreleased\]\n(?P<body>.*?)(?=^## |\Z)` finds
the first line that is exactly `## [Unreleased]` *followed by a newline*
(hence the matched line must not be the last line of a file without a
trailing newline); the lazy body runs up to the next line starting with
`"## "` or the end of the text. -/

/-- Body lines stop at the next level-2 heading (`(?=^## |\Z)`). -/
def notSectionStart (l : String) : Bool := !(startsWithStr l "## ")

/-- Locate the first `## [Unreleased]` line (with a following newline) and
split the changelog into the lines before it, the body lines after it, and
the remaining lines from the next `"## "` line on. -/
def splitUnreleased : List String → Option (List String × List String × List String)
  | [] => none
  | l :: ls =>
    if l = "## [Unreleased]" ∧ ls ≠ [] then
      some ([], ls.takeWhile notSectionStart, ls.dropWhile notSectionStart)
    else
      match splitUnreleased ls with
      | none => none
      | some (p, b, s) => some (l :: p, b, s)

/-- The capture of `re.findall(r"^### (.+)$", body, flags=re.MULTILINE)` on
one line: the text after `"### "` when it is non-empty. -/
def headingOf (l : String) : Option String :=
  if startsWithStr l "### " then
    if l.data.drop 4 = [] then none else some ⟨l.data.drop 4⟩
  else none

/-- Python `changelog_has_entries`: some body line is non-blank after
stripping and is not a `### ` sub-heading line. -/
def changelog_has_entries (body : List String) : Bool :=
  body.any (fun l => pyStrip l ≠ "" && !(startsWithStr (pyStrip l) "### "))

/-- Python `str.rstrip()` acting on joined lines, expressed on the line
list: trailing lines that rstrip to nothing disappear (together with their
newlines), and the last surviving line is rstripped. -/
def rstripLines : List String → List String
  | [] => []
  | l :: ls =>
    match rstripLines ls with
    | [] => if pyRstrip l = "" then [] else [pyRstrip l]
    | r => l :: r

/-- Python `body.strip("\n")` on the line list: leading and trailing
*empty* lines are removed (only newline characters are stripped, so
whitespace-only lines stay). -/
def cleanBodyLines (body : List String) : List String :=
  ((body.dropWhile (fun l => l = "")).reverse.dropWhile (fun l => l = "")).reverse

/-- Lines of `unreleased_block`:
`("## [Unreleased]\n\n" + "".join(f"### {h}\n\n" ...)).rstrip() + "\n"`.
The final `"\n"` is the block/next-line boundary, so the block contributes
exactly these lines. -/
def unreleasedBlockCore (headings : List String) : List String :=
  rstripLines (["## [Unreleased]", ""] ++
    headings.flatMap (fun h => ["### " ++ h, ""]))

/-- Lines of `release_block`:
`f"## [{new_version}] - {today}\n\n"` + (`clean_body + "\n"` when
non-empty) + `"\n"`; the block ends in a newline, so it contributes exactly
these lines. -/
def releaseBlockCore (newVersion today : String) (cleanBody : List String) :
    List String :=
  ("## [" ++ newVersion ++ "] - " ++ today) ::
    (if cleanBody.isEmpty then ["", ""] else "" :: cleanBody ++ [""])

/-- Python `rotate_changelog` as a pure text transform on the line list
(the `dry_run` flag only selects between printing and writing the result
and is handled by the callers).  `today` stands for
`dt.date.today().isoformat()`.  The replacement
`unreleased_block + "\n" + release_block` substitutes the regex match
`text[match.start():match.end()]`; when the suffix is empty the original
body ran to the end of the text, and the trailing newline of the
replacement then becomes a final empty line. -/
def rotate_changelog (path : String) (lines : List String) (newVersion : String)
    (defaultSections : List String) (allowEmpty : Bool) (today : String)
    (makeOverrideCommand : Option String) : Except String (List String) :=
  match splitUnreleased lines with
  | none => .error ("Missing '## [Unreleased]' section in " ++ path)
  | some (pre, body, suf) =>
    let found := body.filterMap headingOf
    let headings := if found.isEmpty then defaultSections else found
    if !(changelog_has_entries body) && !allowEmpty then
      match makeOverrideCommand with
      | some cmd =>
        .error ("Unreleased section in " ++ path ++
          " has no entries.\nOverride from Make target:\n  " ++ cmd)
      | none => .error ("Unreleased section in " ++ path ++ " has no entries.")
    else
      .ok (pre ++ unreleasedBlockCore headings ++ [""] ++
        releaseBlockCore newVersion today (cleanBodyLines body) ++
        (if suf.isEmpty then [""] else suf))

/-- Python `validate_release_section`: the multiline search for
`^## \[<version>\] - ` (the version is `re.escape`d, hence literal)
succeeds exactly when some line starts with that text. -/
def validate_release_section (path : String) (lines : List String)
    (version : String) : Except String Unit :=
  if lines.any (fun l => startsWithStr l ("## [" ++ version ++ "] - ")) then
    .ok ()
  else
    .error ("Missing release section '## [" ++ version ++ "] - YYYY-MM-DD' in " ++ path)

/-! ## Facts about the changelog rotation -/

theorem strAppend_data (a b : String) : (a ++ b).data = a.data ++ b.data := rfl

theorem strEta (s : String) : (⟨s.data⟩ : String) = s := rfl

theorem isPrefixOf_self_append (p t : List Char) : p.isPrefixOf (p ++ t) = true := by
  induction p with
  | nil => simp [List.isPrefixOf]
  | cons c cs ih => simp [List.isPrefixOf, ih]

/-- A well-formed sub-heading: rendering it as a `### ` line is stable
under `rstrip` (no trailing whitespace, not whitespace-only). -/
def wfHeading (h : String) : Prop := pyRstrip ("### " ++ h) = "### " ++ h

theorem wfHeading_ne_empty (h : String) (hw : wfHeading h) : h ≠ "" := by
  intro he
  subst he
  simp only [wfHeading] at hw
  exact absurd hw (by decide)

theorem headingOf_sec (h : String) (hne : h ≠ "") :
    headingOf ("### " ++ h) = some h := by
  have hpre : startsWithStr ("### " ++ h) "### " = true := by
    simp only [startsWithStr, strAppend_data]
    exact isPrefixOf_self_append _ _
  have hdrop : ("### " ++ h).data.drop 4 = h.data := by
    rw [strAppend_data]
    exact List.drop_left "### ".data h.data
  have hne' : h.data ≠ [] := by
    intro hd
    exact hne (by cases h; simp_all)
  simp only [headingOf, hpre, if_pos, hdrop, if_neg hne', strEta]

theorem headingOf_empty_line : headingOf "" = none := by decide

theorem headingOf_unreleased_line : headingOf "## [Unreleased]" = none := by decide

theorem sec_not_sectionStart (h : String) :
    startsWithStr ("### " ++ h) "## " = false := by
  simp [startsWithStr, strAppend_data, List.isPrefixOf]

theorem empty_not_sectionStart : startsWithStr "" "## " = false := by decide

theorem release_header_sectionStart (v t : String) :
    startsWithStr ("## [" ++ v ++ "] - " ++ t) "## " = true := by
  show List.isPrefixOf "## ".data (("## [" ++ v ++ "] - " ++ t).data) = true
  have : ("## [" ++ v ++ "] - " ++ t).data
      = '#' :: '#' :: ' ' :: ('[' :: (v ++ "] - " ++ t).data) := by
    show ("## [".data ++ (v.data ++ "] - ".data)) ++ t.data = _
    simp
  rw [this]
  simp [List.isPrefixOf]

theorem pyStrip_sec (h : String) (hw : wfHeading h) :
    pyStrip ("### " ++ h) = "### " ++ h := by
  have h1 : ("### " ++ h).data.dropWhile Char.isWhitespace = ("### " ++ h).data := by
    rw [show ("### " ++ h).data = '#' :: ('#' :: '#' :: ' ' :: h.data) from rfl]
    rw [List.dropWhile_cons, if_neg (by decide)]
  have h2 : pyStrip ("### " ++ h) = pyRstrip ("### " ++ h) := by
    simp only [pyStrip, pyRstrip, h1]
  rw [h2, hw]

theorem splitUnreleased_spec : ∀ (L pre body suf : List String),
    splitUnreleased L = some (pre, body, suf) →
    L = pre ++ "## [Unreleased]" :: (body ++ suf) ∧ "## [Unreleased]" ∉ pre := by
  intro L
  induction L with
  | nil => intro pre body suf h; simp [splitUnreleased] at h
  | cons l ls ih =>
    intro pre body suf h
    simp only [splitUnreleased] at h
    by_cases hc : l = "## [Unreleased]" ∧ ls ≠ []
    · rw [if_pos hc] at h
      simp only [Option.some.injEq, Prod.mk.injEq] at h
      obtain ⟨h1, h2, h3⟩ := h
      subst h1
      rw [← h2, ← h3, hc.1]
      constructor
      · simp [List.takeWhile_append_dropWhile]
      · simp
    · rw [if_neg hc] at h
      cases hs : splitUnreleased ls with
      | none => rw [hs] at h; simp at h
      | some p =>
        obtain ⟨p', b', s'⟩ := p
        rw [hs] at h
        simp only [Option.some.injEq, Prod.mk.injEq] at h
        obtain ⟨h1, h2, h3⟩ := h
        obtain ⟨e1, e2⟩ := ih p' b' s' hs
        subst h2; subst h3
        rw [← h1]
        constructor
        · simp [← e1]
        · intro hmem
          rcases List.mem_cons.mp hmem with heq | hmem'
          · by_cases hls : ls ≠ []
            · exact hc ⟨heq.symm, hls⟩
            · simp only [ne_eq, not_not] at hls
              subst hls
              simp [splitUnreleased] at hs
          · exact e2 hmem'

theorem splitUnreleased_append : ∀ (pre rest : List String),
    "## [Unreleased]" ∉ pre → rest ≠ [] →
    splitUnreleased (pre ++ "## [Unreleased]" :: rest) =
      some (pre, rest.takeWhile notSectionStart, rest.dropWhile notSectionStart) := by
  intro pre
  induction pre with
  | nil =>
    intro rest _ hr
    simp [splitUnreleased, hr]
  | cons l pre ih =>
    intro rest hmem hr
    have hl : l ≠ "## [Unreleased]" := fun he => hmem (by simp [he])
    have hmem' : "## [Unreleased]" ∉ pre := fun hm => hmem (by simp [hm])
    have hrec := ih rest hmem' hr
    simp only [List.cons_append, splitUnreleased]
    rw [if_neg (fun hand => hl hand.1)]
    simp [List.append_eq, hrec]

theorem takeWhile_append_all_cons (p : String → Bool) (xs : List String)
    (y : String) (ys : List String) (hxs : ∀ x ∈ xs, p x = true)
    (hy : p y = false) :
    (xs ++ y :: ys).takeWhile p = xs ∧ (xs ++ y :: ys).dropWhile p = y :: ys := by
  induction xs with
  | nil => simp [List.takeWhile_cons, List.dropWhile_cons, hy]
  | cons x xs ih =>
    have hx : p x = true := hxs x (by simp)
    have ih' := ih (fun z hz => hxs z (by simp [hz]))
    simp [List.takeWhile_cons, List.dropWhile_cons, hx, ih'.1, ih'.2]

theorem rstripLines_append (xs ys : List String) (h : rstripLines ys ≠ []) :
    rstripLines (xs ++ ys) = xs ++ rstripLines ys := by
  induction xs with
  | nil => simp
  | cons x xs ih =>
    have hne : xs ++ rstripLines ys ≠ [] := by
      intro he
      exact h (List.append_eq_nil.mp he).2
    simp only [List.cons_append, rstripLines, List.append_eq]
    rw [ih]
    cases hys : xs ++ rstripLines ys with
    | nil => exact absurd hys hne
    | cons a as => rfl

theorem sec_line_ne_empty (h : String) : ("### " ++ h : String) ≠ "" := by
  intro he
  have := congrArg String.data he
  simp only [strAppend_data] at this
  exact absurd this (by simp [show ("### " : String).data = ['#','#','#',' '] from rfl])

theorem unreleasedBlockCore_eq (hs : List String)
    (hw : ∀ h ∈ hs, wfHeading h) :
    unreleasedBlockCore hs =
      (["## [Unreleased]", ""] ++ hs.flatMap (fun h => ["### " ++ h, ""])).dropLast := by
  rcases List.eq_nil_or_concat hs with rfl | ⟨hs', h, rfl⟩
  · decide
  · simp only [List.concat_eq_append] at hw ⊢
    have hwh : wfHeading h := hw h (by simp)
    have hflat : (hs' ++ [h]).flatMap (fun x => ["### " ++ x, ""])
        = hs'.flatMap (fun x => ["### " ++ x, ""]) ++ ["### " ++ h, ""] := by
      simp
    rw [unreleasedBlockCore, hflat]
    have hlast : rstripLines ["### " ++ h, ""] = ["### " ++ h] := by
      show (match rstripLines [""] with
        | [] => if pyRstrip ("### " ++ h) = "" then [] else [pyRstrip ("### " ++ h)]
        | r => ("### " ++ h) :: r) = ["### " ++ h]
      have h0 : rstripLines [""] = [] := by decide
      rw [h0]
      have h1 : pyRstrip ("### " ++ h) = "### " ++ h := hwh
      rw [h1, if_neg (sec_line_ne_empty h)]
    rw [show ["## [Unreleased]", ""] ++
          (hs'.flatMap (fun x => ["### " ++ x, ""]) ++ ["### " ++ h, ""])
        = (["## [Unreleased]", ""] ++ hs'.flatMap (fun x => ["### " ++ x, ""]))
          ++ ["### " ++ h, ""] from by simp]
    rw [rstripLines_append _ _ (by rw [hlast]; simp), hlast]
    rw [show (["## [Unreleased]", ""] ++ hs'.flatMap (fun x => ["### " ++ x, ""]))
          ++ ["### " ++ h, ""]
        = ((["## [Unreleased]", ""] ++ hs'.flatMap (fun x => ["### " ++ x, ""]))
          ++ ["### " ++ h]) ++ [""] from by simp]
    rw [List.dropLast_concat]

/-- The crate changelog's default sub-heading set (`CRATE_SECTIONS`). -/
def CRATE_SECTIONS : List String :=
  ["Added", "Changed", "Deprecated", "Removed", "Fixed", "Security"]

/-- The schema changelog's default sub-heading set (`SCHEMA_SECTIONS`). -/
def SCHEMA_SECTIONS : List String :=
  ["Added", "Changed", "Deprecated", "Removed", "Fixed", "Compatibility"]

theorem sec_startsWith (h : String) :
    startsWithStr ("### " ++ h) "### " = true := by
  simp only [startsWithStr, strAppend_data]
  exact isPrefixOf_self_append _ _

theorem filterMap_headingOf_flatMap (hs : List String)
    (hw : ∀ h ∈ hs, wfHeading h) :
    (hs.flatMap (fun h => ["### " ++ h, ""])).filterMap headingOf = hs := by
  induction hs with
  | nil => rfl
  | cons h t ih =>
    have hne := wfHeading_ne_empty h (hw h (by simp))
    simp only [List.flatMap_cons, List.filterMap_append]
    rw [ih (fun x hx => hw x (by simp [hx]))]
    simp [List.filterMap_cons, headingOf_sec h hne, headingOf_empty_line]

theorem unreleasedBlockCore_concat (hs' : List String) (h : String)
    (hw : ∀ x ∈ hs' ++ [h], wfHeading x) :
    unreleasedBlockCore (hs' ++ [h]) =
      ["## [Unreleased]", ""] ++ hs'.flatMap (fun x => ["### " ++ x, ""]) ++
        ["### " ++ h] := by
  rw [unreleasedBlockCore_eq _ hw]
  rw [show (hs' ++ [h]).flatMap (fun x => ["### " ++ x, ""])
      = hs'.flatMap (fun x => ["### " ++ x, ""]) ++ ["### " ++ h, ""] from by simp]
  rw [show ["## [Unreleased]", ""] ++
        (hs'.flatMap (fun x => ["### " ++ x, ""]) ++ ["### " ++ h, ""])
      = ((["## [Unreleased]", ""] ++ hs'.flatMap (fun x => ["### " ++ x, ""]))
        ++ ["### " ++ h]) ++ [""] from by simp]
  rw [List.dropLast_concat]

theorem filterMap_headingOf_fresh (hs : List String)
    (hw : ∀ h ∈ hs, wfHeading h) (hne : hs ≠ []) :
    (unreleasedBlockCore hs).filterMap headingOf = hs := by
  rcases List.eq_nil_or_concat hs with rfl | ⟨hs', h, rfl⟩
  · exact absurd rfl hne
  · simp only [List.concat_eq_append] at hw ⊢
    rw [unreleasedBlockCore_concat hs' h hw]
    have hne' := wfHeading_ne_empty h (hw h (by simp))
    simp only [List.filterMap_append]
    rw [filterMap_headingOf_flatMap hs' (fun x hx => hw x (by simp [hx]))]
    simp [List.filterMap_cons, headingOf_unreleased_line, headingOf_empty_line,
      headingOf_sec h hne']

theorem mem_flatMap_sec (hs : List String) (x : String)
    (hx : x ∈ hs.flatMap (fun h => ["### " ++ h, ""])) :
    x = "" ∨ ∃ h ∈ hs, x = "### " ++ h := by
  rcases List.mem_flatMap.mp hx with ⟨h, hh, hxin⟩
  simp only [List.mem_cons, List.mem_singleton, List.not_mem_nil, or_false] at hxin
  rcases hxin with rfl | rfl
  · exact Or.inr ⟨h, hh, rfl⟩
  · exact Or.inl rfl

theorem entry_pred_empty :
    ((pyStrip "" ≠ "" : Bool) && !(startsWithStr (pyStrip "") "### ")) = false := by
  decide

theorem entry_pred_sec (h : String) (hw : wfHeading h) :
    ((pyStrip ("### " ++ h) ≠ "" : Bool)
      && !(startsWithStr (pyStrip ("### " ++ h)) "### ")) = false := by
  rw [pyStrip_sec h hw, sec_startsWith]
  simp

theorem freshTail_eq (hs' : List String) (h : String)
    (hw : ∀ x ∈ hs' ++ [h], wfHeading x) :
    (unreleasedBlockCore (hs' ++ [h])).drop 1 =
      "" :: (hs'.flatMap (fun x => ["### " ++ x, ""]) ++ ["### " ++ h]) := by
  rw [unreleasedBlockCore_concat hs' h hw]
  simp

theorem has_entries_freshBody (hs' : List String) (h : String)
    (hw : ∀ x ∈ hs' ++ [h], wfHeading x) (tail : List String)
    (htail : ∀ x ∈ tail, x = "") :
    changelog_has_entries
      (("" :: (hs'.flatMap (fun x => ["### " ++ x, ""]) ++ ["### " ++ h]))
        ++ tail) = false := by
  rw [changelog_has_entries, List.any_eq_false]
  intro x hx
  rw [Bool.not_eq_true]
  have hcase : x = "" ∨ ∃ g ∈ hs' ++ [h], x = "### " ++ g := by
    rcases List.mem_cons.mp hx with rfl | hx'
    · exact Or.inl rfl
    · rcases List.mem_append.mp hx' with hx2 | hx2
      · rcases List.mem_append.mp hx2 with hx3 | hx3
        · rcases mem_flatMap_sec hs' x hx3 with h1 | ⟨g, hg, h1⟩
          · exact Or.inl h1
          · exact Or.inr ⟨g, by simp [hg], h1⟩
        · simp only [List.mem_singleton] at hx3
          exact Or.inr ⟨h, by simp, hx3⟩
      · exact Or.inl (htail x hx2)
  rcases hcase with rfl | ⟨g, hg, rfl⟩
  · exact entry_pred_empty
  · exact entry_pred_sec g (hw g hg)

theorem notSectionStart_sec (h : String) :
    notSectionStart ("### " ++ h) = true := by
  simp [notSectionStart, sec_not_sectionStart]

theorem notSectionStart_empty : notSectionStart "" = true := by decide

theorem notSectionStart_release (v t : String) :
    notSectionStart ("## [" ++ v ++ "] - " ++ t) = false := by
  simp [notSectionStart, release_header_sectionStart]

theorem filterMap_headingOf_tail (hs' : List String) (h : String)
    (hw : ∀ x ∈ hs' ++ [h], wfHeading x) :
    (("" :: (hs'.flatMap (fun x => ["### " ++ x, ""]) ++ ["### " ++ h]))
      ++ [""]).filterMap headingOf = hs' ++ [h] := by
  have hne' := wfHeading_ne_empty h (hw h (by simp))
  simp only [List.cons_append, List.filterMap_cons, headingOf_empty_line,
    List.filterMap_append]
  rw [filterMap_headingOf_flatMap hs' (fun x hx => hw x (by simp [hx]))]
  simp [List.filterMap_cons, headingOf_sec h hne', headingOf_empty_line]

/-- Rotating a text that was itself produced by a rotation: the fresh
unreleased block becomes the new body, and the release block written by the
first rotation together with everything after it moves verbatim into the
new suffix. -/
theorem rotate_of_rotated (path2 : String) (pre hs : List String)
    (V V2 today today2 : String) (defaults2 : List String)
    (mo2 : Option String) (cb suf' : List String)
    (hnp : "## [Unreleased]" ∉ pre)
    (hw : ∀ h ∈ hs, wfHeading h) (hne : hs ≠ []) :
    rotate_changelog path2
      (pre ++ unreleasedBlockCore hs ++ [""] ++ releaseBlockCore V today cb ++ suf')
      V2 defaults2 true today2 mo2 =
    .ok (pre ++ unreleasedBlockCore hs ++ [""] ++
      releaseBlockCore V2 today2
        (cleanBodyLines ((unreleasedBlockCore hs).drop 1 ++ [""])) ++
      (releaseBlockCore V today cb ++ suf')) := by
  rcases List.eq_nil_or_concat hs with rfl | ⟨hs', h, rfl⟩
  · exact absurd rfl hne
  · simp only [List.concat_eq_append] at hw ⊢
    have hcore := unreleasedBlockCore_concat hs' h hw
    have htail := freshTail_eq hs' h hw
    set fm := hs'.flatMap (fun x => ["### " ++ x, ""]) with hfm
    set xs : List String := ("" :: (fm ++ ["### " ++ h])) ++ [""] with hxs
    have hall : ∀ x ∈ xs, notSectionStart x = true := by
      intro x hx
      rw [hxs] at hx
      rcases List.mem_append.mp hx with hx1 | hx1
      · rcases List.mem_cons.mp hx1 with rfl | hx2
        · exact notSectionStart_empty
        · rcases List.mem_append.mp hx2 with hx3 | hx3
          · rcases mem_flatMap_sec hs' x (hfm ▸ hx3) with rfl | ⟨g, _, rfl⟩
            · exact notSectionStart_empty
            · exact notSectionStart_sec g
          · simp only [List.mem_singleton] at hx3
            subst hx3
            exact notSectionStart_sec h
      · simp only [List.mem_singleton] at hx1
        subst hx1
        exact notSectionStart_empty
    set rbTail : List String := if cb.isEmpty then ["", ""] else "" :: cb ++ [""]
      with hrbTail
    have hrb : releaseBlockCore V today cb
        = ("## [" ++ V ++ "] - " ++ today) :: rbTail := rfl
    have hlist : pre ++ unreleasedBlockCore (hs' ++ [h]) ++ [""] ++
          releaseBlockCore V today cb ++ suf'
        = pre ++ "## [Unreleased]" ::
            (xs ++ ("## [" ++ V ++ "] - " ++ today) :: (rbTail ++ suf')) := by
      rw [hcore, hrb, hxs]
      simp
    have hsplit2 := splitUnreleased_append pre
      (xs ++ ("## [" ++ V ++ "] - " ++ today) :: (rbTail ++ suf')) hnp (by simp)
    have htd := takeWhile_append_all_cons notSectionStart xs
      ("## [" ++ V ++ "] - " ++ today) (rbTail ++ suf') hall
      (notSectionStart_release V today)
    rw [htd.1, htd.2] at hsplit2
    have hfound : xs.filterMap headingOf = hs' ++ [h] := by
      rw [hxs, hfm]
      exact filterMap_headingOf_tail hs' h hw
    rw [hlist]
    simp only [rotate_changelog, hsplit2, hfound]
    rw [if_neg (by simp)]
    have hbody2 : xs = (unreleasedBlockCore (hs' ++ [h])).drop 1 ++ [""] := by
      rw [htail, hxs, hfm]
    have hsufne : (("## [" ++ V ++ "] - " ++ today) :: (rbTail ++ suf')).isEmpty
        = false := rfl
    simp only [hsufne, Bool.false_eq_true, if_false, hbody2, hrb]
    simp

/-! ## Claim C6: changelog rotation -/

/-- Claim C6, amended: for every changelog whose unreleased section is
found by `UNRELEASED_RE` and whose used sub-heading set (the body's
headings, or the track's defaults when the body has none) is non-empty and
free of trailing whitespace, rotation to version `V` replaces the section
with a fresh unreleased section carrying the same sub-headings in order and
no entries, immediately followed by a release section `## [V] - <date>`
holding the original body (with surrounding blank lines trimmed); the lines
before and after the replaced region — in particular every previously
released section — are unchanged, and rotating the result again with
`allow_empty` keeps the first rotation's release section and the whole old
suffix verbatim.  (The claim as frozen is falsified by sub-headings with
trailing whitespace, see the counterexample; the well-formedness hypothesis
`wfHeading` is the amendment.) -/
theorem c6_rotate_changelog_amended (path path2 : String)
    (L pre body suf : List String) (V V2 today today2 : String)
    (defaults defaults2 : List String) (ae : Bool) (mo mo2 : Option String)
    (hs : List String)
    (hsplit : splitUnreleased L = some (pre, body, suf))
    (hhs : hs = if (body.filterMap headingOf).isEmpty then defaults
      else body.filterMap headingOf)
    (hw : ∀ h ∈ hs, wfHeading h) (hne : hs ≠ [])
    (hent : changelog_has_entries body = true) :
    L = pre ++ "## [Unreleased]" :: (body ++ suf) ∧
    rotate_changelog path L V defaults ae today mo =
      .ok (pre ++ unreleasedBlockCore hs ++ [""] ++
        releaseBlockCore V today (cleanBodyLines body) ++
        (if suf.isEmpty then [""] else suf)) ∧
    unreleasedBlockCore hs =
      (["## [Unreleased]", ""] ++
        hs.flatMap (fun h => ["### " ++ h, ""])).dropLast ∧
    (unreleasedBlockCore hs).filterMap headingOf = hs ∧
    changelog_has_entries ((unreleasedBlockCore hs).drop 1) = false ∧
    rotate_changelog path2
      (pre ++ unreleasedBlockCore hs ++ [""] ++
        releaseBlockCore V today (cleanBodyLines body) ++
        (if suf.isEmpty then [""] else suf))
      V2 defaults2 true today2 mo2 =
      .ok (pre ++ unreleasedBlockCore hs ++ [""] ++
        releaseBlockCore V2 today2
          (cleanBodyLines ((unreleasedBlockCore hs).drop 1 ++ [""])) ++
        (releaseBlockCore V today (cleanBodyLines body) ++
          (if suf.isEmpty then [""] else suf))) := by
  obtain ⟨hL, hnp⟩ := splitUnreleased_spec L pre body suf hsplit
  refine ⟨hL, ?_, unreleasedBlockCore_eq hs hw, filterMap_headingOf_fresh hs hw hne,
    ?_, rotate_of_rotated path2 pre hs V V2 today today2 defaults2 mo2
      (cleanBodyLines body) (if suf.isEmpty then [""] else suf) hnp hw hne⟩
  · simp only [rotate_changelog, hsplit, ← hhs, hent]
    simp
  · rcases List.eq_nil_or_concat hs with rfl | ⟨hs', h, rfl⟩
    · exact absurd rfl hne
    · simp only [List.concat_eq_append] at hw ⊢
      rw [freshTail_eq hs' h hw]
      have := has_entries_freshBody hs' h hw [] (by simp)
      simpa using this

/-- Claim C6 counterexample: the claim promises that the fresh unreleased
section carries *the same* sub-headings; but a sub-heading with trailing
whitespace (captured verbatim by `^### (.+)$`) is altered, because the last
heading line of the rebuilt block passes through `str.rstrip()`.  Here the
body's sub-heading list is `["Fixed "]` while the rotated text's fresh
unreleased section carries `["Fixed"]`. -/
theorem c6_trailing_space_heading_cex :
    ((splitUnreleased
        ["## [Unreleased]", "### Fixed ", "- x", "## [0.1.0] - 2024-01-01", ""]).map
      (fun t => t.2.1.filterMap headingOf)) = some ["Fixed "] ∧
    rotate_changelog "CHANGELOG.md"
      ["## [Unreleased]", "### Fixed ", "- x", "## [0.1.0] - 2024-01-01", ""]
      "0.2.0" CRATE_SECTIONS false "2025-06-01" none =
      .ok ["## [Unreleased]", "", "### Fixed", "", "## [0.2.0] - 2025-06-01", "",
        "### Fixed ", "- x", "", "## [0.1.0] - 2024-01-01", ""] ∧
    ((splitUnreleased
        ["## [Unreleased]", "", "### Fixed", "", "## [0.2.0] - 2025-06-01", "",
          "### Fixed ", "- x", "", "## [0.1.0] - 2024-01-01", ""]).map
      (fun t => t.2.1.filterMap headingOf)) = some ["Fixed"] ∧
    (["Fixed"] : List String) ≠ ["Fixed "] := by
  exact ⟨by rfl, by rfl, by rfl, by decide⟩

/-- Witness for the amended C6 on a concrete two-section changelog. -/
theorem c6_rotate_changelog_amended_witness :
    splitUnreleased
      ["# CL", "", "## [Unreleased]", "", "### Fixed", "", "- x", "",
        "## [0.1.0] - 2024-01-01", "", "- old", ""] =
      some (["# CL", ""], ["", "### Fixed", "", "- x", ""],
        ["## [0.1.0] - 2024-01-01", "", "- old", ""]) ∧
    rotate_changelog "CHANGELOG.md"
      ["# CL", "", "## [Unreleased]", "", "### Fixed", "", "- x", "",
        "## [0.1.0] - 2024-01-01", "", "- old", ""]
      "0.2.0" CRATE_SECTIONS false "2025-06-01" none =
      .ok (["# CL", ""] ++ unreleasedBlockCore ["Fixed"] ++ [""] ++
        releaseBlockCore "0.2.0" "2025-06-01"
          (cleanBodyLines ["", "### Fixed", "", "- x", ""]) ++
        ["## [0.1.0] - 2024-01-01", "", "- old", ""]) ∧
    rotate_changelog "CHANGELOG.md"
      (["# CL", ""] ++ unreleasedBlockCore ["Fixed"] ++ [""] ++
        releaseBlockCore "0.2.0" "2025-06-01"
          (cleanBodyLines ["", "### Fixed", "", "- x", ""]) ++
        ["## [0.1.0] - 2024-01-01", "", "- old", ""])
      "0.3.0" CRATE_SECTIONS true "2025-07-01" none =
      .ok (["# CL", ""] ++ unreleasedBlockCore ["Fixed"] ++ [""] ++
        releaseBlockCore "0.3.0" "2025-07-01"
          (cleanBodyLines ((unreleasedBlockCore ["Fixed"]).drop 1 ++ [""])) ++
        (releaseBlockCore "0.2.0" "2025-06-01"
          (cleanBodyLines ["", "### Fixed", "", "- x", ""]) ++
          ["## [0.1.0] - 2024-01-01", "", "- old", ""])) := by
  have hsplit : splitUnreleased
      ["# CL", "", "## [Unreleased]", "", "### Fixed", "", "- x", "",
        "## [0.1.0] - 2024-01-01", "", "- old", ""] =
      some (["# CL", ""], ["", "### Fixed", "", "- x", ""],
        ["## [0.1.0] - 2024-01-01", "", "- old", ""]) := by rfl
  have big := c6_rotate_changelog_amended "CHANGELOG.md" "CHANGELOG.md"
    ["# CL", "", "## [Unreleased]", "", "### Fixed", "", "- x", "",
      "## [0.1.0] - 2024-01-01", "", "- old", ""]
    ["# CL", ""] ["", "### Fixed", "", "- x", ""]
    ["## [0.1.0] - 2024-01-01", "", "- old", ""]
    "0.2.0" "0.3.0" "2025-06-01" "2025-07-01" CRATE_SECTIONS CRATE_SECTIONS
    false none none ["Fixed"] hsplit (by rfl)
    (by
      intro h hh
      simp only [List.mem_singleton] at hh
      subst hh
      simp only [wfHeading]
      decide)
    (by decide) (by decide)
  refine ⟨hsplit, ?_, ?_⟩
  · simpa using big.2.1
  · simpa using big.2.2.2.2.2

/-! ## Tag guard (`create_tag` / `push_tag`)

Local/remote existence of the tag (`git show-ref` / `git ls-remote`) is the
state; `git tag -a` and `git push` move it.  Failures raise `BumpError`
with the messages below; the state machine models the non-dry-run path. -/

/-- Python `shlex.quote`. -/
def shlexQuote (s : String) : String :=
  if s = "" then "''"
  else if s.data.all (fun c =>
      c.isAlphanum || c = '_' || c = '@' || c = '%' || c = '+' || c = '=' ||
      c = ':' || c = ',' || c = '.' || c = '/' || c = '-') then s
  else "'" ++ ⟨s.data.flatMap (fun c =>
    if c = '\'' then "'\"'\"'".data else [c])⟩ ++ "'"

/-- Python `shlex.join`. -/
def shlexJoin (args : List String) : String :=
  String.intercalate " " (args.map shlexQuote)

/-- Existence state of one tag: locally created, pushed to the remote. -/
structure TagSt where
  loc : Bool
  rem : Bool
deriving DecidableEq

/-- Python `create_tag` (non-dry-run): fail when the tag already exists
locally, otherwise run `git tag -a` (`gitOk` = the subprocess exit status);
result state plus the raised `BumpError` message, if any. -/
def create_tag (gitOk : Bool) (s : TagSt) (tagName message : String) :
    TagSt × Option String :=
  if s.loc then (s, some ("Local tag already exists: " ++ tagName))
  else if gitOk then ({ s with loc := true }, none)
  else (s, some ("Command failed: " ++
    shlexJoin ["git", "tag", "-a", tagName, "-m", message]))

/-- Python `push_tag` (non-dry-run): fail when the tag is not local; query
the remote (`queryErr` = the stderr of a failing `git ls-remote`, `none`
when the query succeeds); fail when the tag is already on the remote;
otherwise run `git push` (`gitOk`). -/
def push_tag (queryErr : Option String) (gitOk : Bool) (s : TagSt)
    (tagName : String) : TagSt × Option String :=
  if !s.loc then
    (s, some ("Local tag does not exist: " ++ tagName ++ ". Create it first."))
  else
    match queryErr with
    | some e =>
      (s, some ("Failed to query remote tags for '" ++ tagName ++ "': " ++ e))
    | none =>
      if s.rem then (s, some ("Remote tag already exists on origin: " ++ tagName))
      else if gitOk then ({ s with rem := true }, none)
      else (s, some ("Command failed: " ++
        shlexJoin ["git", "push", "origin", "refs/tags/" ++ tagName]))

/-- One tag-guard operation with its external-world outcomes. -/
inductive TagOp where
  | create (gitOk : Bool) (tagName message : String)
  | push (queryErr : Option String) (gitOk : Bool) (tagName : String)

/-- Run one operation. -/
def stepTag (s : TagSt) : TagOp → TagSt × Option String
  | .create g n m => create_tag g s n m
  | .push q g n => push_tag q g s n

/-- Run a sequence of operations, keeping the state across failures (a
failed operation leaves the tag state untouched). -/
def runTagOps (s : TagSt) : List TagOp → TagSt
  | [] => s
  | op :: ops => runTagOps (stepTag s op).1 ops

/-! ## Claim C7: the tag lifecycle -/

/-- Claim C7: `create` fails with the `TagExists` message when the tag is
already local and otherwise (git succeeding) moves it to local; `push`
fails with `TagNotCreated` when the tag is not local, with
`TagAlreadyRemote` when it is already on the remote, and otherwise moves it
to remote; and once a tag has been pushed (state local+remote), every later
`create` or `push` of that tag fails and the state never changes again. -/
theorem c7_tag_guard_machine :
    (∀ (s : TagSt) (g : Bool) (n m : String), s.loc = true →
      create_tag g s n m = (s, some ("Local tag already exists: " ++ n))) ∧
    (∀ (r : Bool) (n m : String),
      create_tag true ⟨false, r⟩ n m = (⟨true, r⟩, none)) ∧
    (∀ (r g : Bool) (q : Option String) (n : String),
      push_tag q g ⟨false, r⟩ n =
        (⟨false, r⟩, some ("Local tag does not exist: " ++ n ++ ". Create it first."))) ∧
    (∀ (g : Bool) (n : String),
      push_tag none g ⟨true, true⟩ n =
        (⟨true, true⟩, some ("Remote tag already exists on origin: " ++ n))) ∧
    (∀ n : String, push_tag none true ⟨true, false⟩ n = (⟨true, true⟩, none)) ∧
    (∀ ops : List TagOp, runTagOps ⟨true, true⟩ ops = ⟨true, true⟩) ∧
    (∀ op : TagOp, (stepTag ⟨true, true⟩ op).2.isSome = true) := by
  have hstep : ∀ op : TagOp, (stepTag ⟨true, true⟩ op).1 = ⟨true, true⟩ ∧
      (stepTag ⟨true, true⟩ op).2.isSome = true := by
    intro op
    cases op with
    | create g n m => simp [stepTag, create_tag]
    | push q g n =>
      cases q with
      | none => simp [stepTag, push_tag]
      | some e => simp [stepTag, push_tag]
  refine ⟨?_, ?_, ?_, ?_, ?_, ?_, fun op => (hstep op).2⟩
  · intro s g n m h
    cases s
    simp only at h
    subst h
    simp [create_tag]
  · intro r n m
    simp [create_tag]
  · intro r g q n
    simp [push_tag]
  · intro g n
    simp [push_tag]
  · intro n
    simp [push_tag]
  · intro ops
    induction ops with
    | nil => rfl
    | cons op ops ih =>
      simp only [runTagOps, (hstep op).1, ih]

/-- Witness for C7 at the concrete tag `v1.0.0`. -/
theorem c7_tag_guard_machine_witness :
    TagSt.loc ⟨true, false⟩ = true ∧
    create_tag true ⟨true, false⟩ "v1.0.0" "release v1.0.0" =
      (⟨true, false⟩, some ("Local tag already exists: " ++ "v1.0.0")) := by
  exact ⟨rfl, c7_tag_guard_machine.1 ⟨true, false⟩ true "v1.0.0" "release v1.0.0" rfl⟩

/-! ## Tag-time version resolution (`resolve_tag_crate_version` /
`resolve_tag_schema_version`)

`tomllib` is the oracle `tomlVer` mapping the manifest lines to the
`[package].version` value (`none` for a missing or falsy value); file paths
appear in messages relative to the repository root. -/

/-- Python `read_cargo_version`. -/
def read_cargo_version (tomlVer : List String → Option String)
    (cargo : List String) : Except String String :=
  match tomlVer cargo with
  | none => .error "Could not read [package].version from Cargo.toml"
  | some v => validate_semver v

/-- Python `read_schema_version_file` (`svExists`: whether the
`SCHEMA_VERSION` file exists; `svText`: its content). -/
def read_schema_version_file (svExists : Bool) (svText : String) :
    Except String String :=
  if !svExists then .error "Missing schema version file: SCHEMA_VERSION"
  else validate_semver (pyStrip svText)

/-- Python `resolve_tag_crate_version` (`overrideEnv`: the value of the
`VERSION` environment variable, `""` when unset). -/
def resolve_tag_crate_version (tomlVer : List String → Option String)
    (cargo : List String) (overrideEnv : String) (changelog : List String)
    (requireReleaseSection : Bool) : Except String String :=
  match read_cargo_version tomlVer cargo with
  | .error e => .error e
  | .ok cargoVersion =>
    let ov := pyStrip overrideEnv
    match (if ov ≠ "" then validate_semver ov else .ok cargoVersion) with
    | .error e => .error e
    | .ok resolved =>
      if resolved ≠ cargoVersion then
        .error ("VERSION override does not match Cargo.toml version. Cargo.toml has "
          ++ cargoVersion ++ ", override requested " ++ resolved ++ ".")
      else if requireReleaseSection then
        match validate_release_section "CHANGELOG.md" changelog resolved with
        | .error e => .error e
        | .ok _ => .ok resolved
      else .ok resolved

/-- Python `resolve_tag_schema_version` (`overrideEnv`: the value of the
`SCHEMA_VERSION` environment variable, `""` when unset). -/
def resolve_tag_schema_version (svExists : Bool) (svText : String)
    (overrideEnv : String) (schemaChangelog : List String)
    (requireReleaseSection : Bool) : Except String String :=
  match read_schema_version_file svExists svText with
  | .error e => .error e
  | .ok schemaVersion =>
    let ov := pyStrip overrideEnv
    match (if ov ≠ "" then validate_semver ov else .ok schemaVersion) with
    | .error e => .error e
    | .ok resolved =>
      if resolved ≠ schemaVersion then
        .error ("SCHEMA_VERSION override does not match SCHEMA_VERSION file value. SCHEMA_VERSION has "
          ++ schemaVersion ++ ", override requested " ++ resolved ++ ".")
      else if requireReleaseSection then
        match validate_release_section "SCHEMA_CHANGELOG.md" schemaChangelog resolved with
        | .error e => .error e
        | .ok _ => .ok resolved
      else .ok resolved

/-! ## Claim C8: tag creation guards -/

/-- Claim C8: resolving the version for a release tag with
`require_release_section` (as `tag-crate`/`tag-schema` do) fails unless the
track's changelog contains a line starting `## [X.Y.Z] - ` for the exact
resolved version; a supplied valid override differing from the on-disk
version fails with the `VersionMismatch` message for both the tag and the
push-only flows; and without `require_release_section` (as
`push-tag-crate`/`push-tag-schema` do) the changelog is not consulted. -/
theorem c8_release_tag_guards (tomlVer : List String → Option String)
    (cargo : List String) (cv : String) (t : Nat × Nat × Nat)
    (hcv : tomlVer cargo = some cv) (hsem : semverChars cv.data = some t)
    (svText : String) (sv : String) (t2 : Nat × Nat × Nat)
    (hsv : pyStrip svText = sv) (hsem2 : semverChars sv.data = some t2) :
    (∀ changelog : List String,
      changelog.any (fun l => startsWithStr l ("## [" ++ cv ++ "] - ")) = false →
      resolve_tag_crate_version tomlVer cargo "" changelog true =
        .error ("Missing release section '## [" ++ cv ++ "] - YYYY-MM-DD' in " ++ "CHANGELOG.md")) ∧
    (∀ changelog : List String,
      changelog.any (fun l => startsWithStr l ("## [" ++ cv ++ "] - ")) = true →
      resolve_tag_crate_version tomlVer cargo "" changelog true = .ok cv) ∧
    (∀ (ov : String) (req : Bool) (changelog : List String) (u : Nat × Nat × Nat),
      pyStrip ov ≠ "" → semverChars (pyStrip ov).data = some u → pyStrip ov ≠ cv →
      resolve_tag_crate_version tomlVer cargo ov changelog req =
        .error ("VERSION override does not match Cargo.toml version. Cargo.toml has "
          ++ cv ++ ", override requested " ++ pyStrip ov ++ ".")) ∧
    (∀ changelog : List String,
      resolve_tag_crate_version tomlVer cargo "" changelog false = .ok cv) ∧
    (∀ schemaChangelog : List String,
      schemaChangelog.any (fun l => startsWithStr l ("## [" ++ sv ++ "] - ")) = false →
      resolve_tag_schema_version true svText "" schemaChangelog true =
        .error ("Missing release section '## [" ++ sv ++ "] - YYYY-MM-DD' in " ++ "SCHEMA_CHANGELOG.md")) ∧
    (∀ schemaChangelog : List String,
      schemaChangelog.any (fun l => startsWithStr l ("## [" ++ sv ++ "] - ")) = true →
      resolve_tag_schema_version true svText "" schemaChangelog true = .ok sv) ∧
    (∀ (ov : String) (req : Bool) (schemaChangelog : List String) (u : Nat × Nat × Nat),
      pyStrip ov ≠ "" → semverChars (pyStrip ov).data = some u → pyStrip ov ≠ sv →
      resolve_tag_schema_version true svText ov schemaChangelog req =
        .error ("SCHEMA_VERSION override does not match SCHEMA_VERSION file value. SCHEMA_VERSION has "
          ++ sv ++ ", override requested " ++ pyStrip ov ++ ".")) ∧
    (∀ schemaChangelog : List String,
      resolve_tag_schema_version true svText "" schemaChangelog false = .ok sv) := by
  have hread : read_cargo_version tomlVer cargo = .ok cv := by
    simp [read_cargo_version, hcv, validate_semver, hsem]
  have hreads : read_schema_version_file true svText = .ok sv := by
    simp [read_schema_version_file, hsv, validate_semver, hsem2]
  have hempty : pyStrip "" = "" := by decide
  refine ⟨?_, ?_, ?_, ?_, ?_, ?_, ?_, ?_⟩
  · intro changelog hno
    simp [resolve_tag_crate_version, hread, hempty, validate_release_section, hno]
  · intro changelog hyes
    simp [resolve_tag_crate_version, hread, hempty, validate_release_section, hyes]
  · intro ov req changelog u hne hu hdiff
    simp [resolve_tag_crate_version, hread, hne, validate_semver, hu, hdiff]
  · intro changelog
    simp [resolve_tag_crate_version, hread, hempty]
  · intro schemaChangelog hno
    simp [resolve_tag_schema_version, hreads, hempty, validate_release_section, hno]
  · intro schemaChangelog hyes
    simp [resolve_tag_schema_version, hreads, hempty, validate_release_section, hyes]
  · intro ov req schemaChangelog u hne hu hdiff
    simp [resolve_tag_schema_version, hreads, hne, validate_semver, hu, hdiff]
  · intro schemaChangelog
    simp [resolve_tag_schema_version, hreads, hempty]

/-- Witness for C8 with on-disk versions `1.2.3` (crate) and `0.4.0`
(schema) and an override `9.9.9`. -/
theorem c8_release_tag_guards_witness :
    resolve_tag_crate_version (fun _ => some "1.2.3") [] "" [] true =
      .error ("Missing release section '## [" ++ "1.2.3" ++ "] - YYYY-MM-DD' in " ++ "CHANGELOG.md") ∧
    resolve_tag_crate_version (fun _ => some "1.2.3") []
      "" ["## [1.2.3] - 2025-01-01"] true = .ok "1.2.3" ∧
    resolve_tag_crate_version (fun _ => some "1.2.3") [] "9.9.9" [] false =
      .error ("VERSION override does not match Cargo.toml version. Cargo.toml has "
        ++ "1.2.3" ++ ", override requested " ++ pyStrip "9.9.9" ++ ".") ∧
    resolve_tag_crate_version (fun _ => some "1.2.3") [] "" [] false = .ok "1.2.3" ∧
    resolve_tag_schema_version true "0.4.0\n" "" [] true =
      .error ("Missing release section '## [" ++ "0.4.0" ++ "] - YYYY-MM-DD' in " ++ "SCHEMA_CHANGELOG.md") ∧
    resolve_tag_schema_version true "0.4.0\n" ""
      ["## [0.4.0] - 2025-01-01"] true = .ok "0.4.0" ∧
    resolve_tag_schema_version true "0.4.0\n" "9.9.9" [] true =
      .error ("SCHEMA_VERSION override does not match SCHEMA_VERSION file value. SCHEMA_VERSION has "
        ++ "0.4.0" ++ ", override requested " ++ pyStrip "9.9.9" ++ ".") ∧
    resolve_tag_schema_version true "0.4.0\n" "" [] false = .ok "0.4.0" := by
  obtain ⟨a, b, c, d, e, f, g, i⟩ := c8_release_tag_guards (fun _ => some "1.2.3")
    [] "1.2.3" (1, 2, 3) rfl (by decide) "0.4.0\n" "0.4.0" (0, 4, 0)
    (by decide) (by decide)
  exact ⟨a [] (by rfl), b ["## [1.2.3] - 2025-01-01"] (by decide),
    c "9.9.9" false [] (9, 9, 9) (by decide) (by decide) (by decide),
    d [], e [] (by rfl), f ["## [0.4.0] - 2025-01-01"] (by decide),
    g "9.9.9" true [] (9, 9, 9) (by decide) (by decide) (by decide), i []⟩

/-! ## File writes

Every file mutation the scripts perform is recorded in a write log.
`write_atomic` (and `write_json_atomic`) write a `.tmp` sibling and rename
it over the target — one `atomicW` entry; a bare `Path.write_text` is a
`directW` entry; `Path.unlink` is `unlinkW`. -/

inductive FileWrite where
  | atomicW (path content : String)
  | directW (path content : String)
  | unlinkW (path : String)
deriving DecidableEq

/-- Whether a log entry is a temp-file-plus-rename write (or a removal). -/
def isAtomicOrUnlink : FileWrite → Bool
  | .atomicW _ _ => true
  | .unlinkW _ => true
  | .directW _ _ => false

/-- Python `write_atomic` of `version_bump.py`. -/
def write_atomic (path content : String) : List FileWrite :=
  [.atomicW path content]

/-! ## Manifest version rewrite (`update_cargo_version`)

The version line regex `^(\s*version\s*=\s*")([^"]+)(".*?)(\r?\n?)$` is
deterministic; on the newline-free line representation group 4 is empty and
group 3 runs from the closing quote to the end of the line. -/

/-- Match the version-line regex against one manifest line: groups 1
(everything up to and including the opening quote), 2 (the value) and 3
(from the closing quote on). -/
def matchVersionLine (l : String) : Option (String × String × String) :=
  let cs := l.data
  let ws1 := cs.takeWhile Char.isWhitespace
  let r1 := cs.dropWhile Char.isWhitespace
  match stripPrefixChars "version".data r1 with
  | none => none
  | some r2 =>
    let ws2 := r2.takeWhile Char.isWhitespace
    let r3 := r2.dropWhile Char.isWhitespace
    match r3 with
    | '=' :: r4 =>
      let ws3 := r4.takeWhile Char.isWhitespace
      let r5 := r4.dropWhile Char.isWhitespace
      match r5 with
      | '"' :: r6 =>
        let v := r6.takeWhile (fun c => c ≠ '"')
        let r7 := r6.dropWhile (fun c => c ≠ '"')
        if v = [] then none
        else
          match r7 with
          | '"' :: r8 =>
            some (⟨ws1 ++ "version".data ++ ws2 ++ '=' :: ws3 ++ ['"']⟩,
              ⟨v⟩, ⟨'"' :: r8⟩)
          | _ => none
      | _ => none
    | _ => none

/-- Index of the first line whose stripped text is `[package]`. -/
def findPackageIdx (lines : List String) : Option Nat :=
  lines.findIdx? (fun l => pyStrip l = "[package]")

/-- A stripped line that opens the next section (`[` … `]`). -/
def isSectionBoundary (l : String) : Bool :=
  startsWithStr (pyStrip l) "[" && endsWithStr (pyStrip l) "]"

/-- Scan the lines after `[package]` for the first version line, stopping
at the next section boundary: relative index and the three match groups. -/
def findVersionInPackage : List String → Option (Nat × String × String × String)
  | [] => none
  | l :: ls =>
    if isSectionBoundary l then none
    else
      match matchVersionLine l with
      | some (g1, g2, g3) => some (0, g1, g2, g3)
      | none => (findVersionInPackage ls).map (fun t => (t.1 + 1, t.2))

/-- Python `update_cargo_version`.  `tomlVer` reads `[package].version`
through `tomllib`; `tomlErr` is the re-parse check of the rewritten
manifest (`none` = parses, `some exc` = `TOMLDecodeError exc`). -/
def update_cargo_version (tomlVer : List String → Option String)
    (tomlErr : List String → Option String) (cargo : List String)
    (newVersion : String) (dryRun : Bool) :
    (Except String (String × String)) × List FileWrite :=
  match read_cargo_version tomlVer cargo with
  | .error e => (.error e, [])
  | .ok oldVersion =>
    if oldVersion = newVersion then
      (.error "New crate version matches current version; nothing to do", [])
    else
      match findPackageIdx cargo with
      | none => (.error "[package] section not found in Cargo.toml", [])
      | some pstart =>
        match findVersionInPackage (cargo.drop (pstart + 1)) with
        | none =>
          (.error "version entry not found in [package] section of Cargo.toml", [])
        | some (rel, g1, _, g3) =>
          let updated := cargo.set (pstart + 1 + rel) (g1 ++ newVersion ++ g3)
          match tomlErr updated with
          | some exc =>
            (.error ("Generated invalid Cargo.toml while updating version: " ++ exc), [])
          | none =>
            if dryRun then (.ok (oldVersion, newVersion), [])
            else (.ok (oldVersion, newVersion),
              write_atomic "Cargo.toml" (joinLines updated))

/-- The file-writing wrapper around the pure `rotate_changelog` transform
(the function's `dry_run` branch). -/
def rotate_changelog_op (path : String) (lines : List String)
    (newVersion : String) (defaultSections : List String)
    (allowEmpty dryRun : Bool) (today : String)
    (makeOverrideCommand : Option String) :
    (Except String Unit) × List FileWrite :=
  match rotate_changelog path lines newVersion defaultSections allowEmpty today
      makeOverrideCommand with
  | .error e => (.error e, [])
  | .ok updated =>
    if dryRun then (.ok (), [])
    else (.ok (), write_atomic path (joinLines updated))

/-- Python `sync_cargo_lockfile`: runs `cargo +1.88.0 generate-lockfile`
(`lockOk` = its exit status); the lockfile itself is written by cargo, not
by this program. -/
def sync_cargo_lockfile (lockOk dryRun : Bool) :
    (Except String Unit) × List FileWrite :=
  if dryRun then (.ok (), [])
  else if lockOk then (.ok (), [])
  else (.error "Failed to synchronize Cargo.lock after crate version bump.\nRun: make sync-lockfile", [])

/-- The `make` override hint assembled at the top of `do_bump_crate`. -/
def crateMakeOverride (level version : Option String) : String :=
  match level with
  | some l => "make bump-crate-" ++ l ++ " ALLOW_EMPTY_CHANGELOG=1"
  | none =>
    match version with
    | some v => "make bump-crate VERSION=" ++ v ++ " ALLOW_EMPTY_CHANGELOG=1"
    | none => "make bump-crate ALLOW_EMPTY_CHANGELOG=1"

/-- The `make` override hint assembled at the top of `do_bump_schema`. -/
def schemaMakeOverride (level version : Option String) : String :=
  match level with
  | some l => "make bump-schema-" ++ l ++ " ALLOW_EMPTY_SCHEMA_CHANGELOG=1"
  | none =>
    match version with
    | some v => "make bump-schema VERSION=" ++ v ++ " ALLOW_EMPTY_SCHEMA_CHANGELOG=1"
    | none => "make bump-schema ALLOW_EMPTY_SCHEMA_CHANGELOG=1"

/-- Arguments of the two bump subcommands. -/
structure BumpArgs where
  level : Option String
  version : Option String
  allowEmptyChangelog : Bool
  dryRun : Bool

/-- Python `do_bump_crate` (stdout prints and hint emission omitted — they
do not touch files). -/
def do_bump_crate (tomlVer tomlErr : List String → Option String)
    (lockOk : Bool) (cargo changelog : List String) (args : BumpArgs)
    (today : String) : (Except String Unit) × List FileWrite :=
  let mo := crateMakeOverride args.level args.version
  match read_cargo_version tomlVer cargo with
  | .error e => (.error e, [])
  | .ok cur =>
    match resolve_next_version cur args.level args.version with
    | .error e => (.error e, [])
    | .ok nextV =>
      match update_cargo_version tomlVer tomlErr cargo nextV args.dryRun with
      | (.error e, w1) => (.error e, w1)
      | (.ok _, w1) =>
        match rotate_changelog_op "CHANGELOG.md" changelog nextV CRATE_SECTIONS
            args.allowEmptyChangelog args.dryRun today (some mo) with
        | (.error e, w2) => (.error e, w1 ++ w2)
        | (.ok _, w2) =>
          match sync_cargo_lockfile lockOk args.dryRun with
          | (.error e, w3) => (.error e, w1 ++ w2 ++ w3)
          | (.ok _, w3) => (.ok (), w1 ++ w2 ++ w3)

/-- Python `do_bump_schema`.  `schemaExists`/`schemaContent` model the
schema directory; `jsonErr` is the JSON re-parse oracle of
`update_schema_changelog_version`. -/
def do_bump_schema (jsonErr : String → Option String) (svExists : Bool)
    (svText : String) (schemaChangelog : List String)
    (schemaExists : String → Bool) (schemaContent : String → String)
    (args : BumpArgs) (today : String) :
    (Except String Unit) × List FileWrite :=
  let mo := schemaMakeOverride args.level args.version
  match read_schema_version_file svExists svText with
  | .error e => (.error e, [])
  | .ok old =>
    match resolve_next_version old args.level args.version with
    | .error e => (.error e, [])
    | .ok new =>
      if old = new then
        (.error "New schema version matches current version; nothing to do", [])
      else
        let oldPath := "schemas/envgen.schema.v" ++ old ++ ".json"
        let newPath := "schemas/envgen.schema.v" ++ new ++ ".json"
        if !(schemaExists oldPath) then
          (.error ("Current schema file does not exist: " ++ oldPath), [])
        else if schemaExists newPath then
          (.error ("Target schema file already exists: " ++ newPath), [])
        else
          match update_schema_changelog_version (schemaContent oldPath) new jsonErr with
          | .error e => (.error e, [])
          | .ok updatedSchema =>
            match rotate_changelog_op "SCHEMA_CHANGELOG.md" schemaChangelog new
                SCHEMA_SECTIONS args.allowEmptyChangelog args.dryRun today (some mo) with
            | (.error e, w) => (.error e, w)
            | (.ok _, w) =>
              if args.dryRun then (.ok (), w)
              else (.ok (), w ++ write_atomic newPath updatedSchema ++
                [.unlinkW oldPath] ++ write_atomic "SCHEMA_VERSION" (new ++ "\n"))

/-! ## Claim C10: equal-version bump is a guarded no-op -/

/-- Claim C10: for both tracks, a bump whose explicit `--version` equals
the current on-disk version fails with the "nothing to do" error before
any file has been written: the write log of the whole command is empty, so
the manifest, both changelogs, the schema artifact and the schema version
file are untouched. -/
theorem c10_bump_same_version_no_writes
    (tomlVer tomlErr : List String → Option String) (lockOk : Bool)
    (cargo changelog schemaChangelog : List String)
    (jsonErr : String → Option String) (schemaExists : String → Bool)
    (schemaContent : String → String) (svText : String)
    (cur sv : String) (t t2 : Nat × Nat × Nat)
    (hcv : tomlVer cargo = some cur) (hsem : semverChars cur.data = some t)
    (hsv : pyStrip svText = sv) (hsem2 : semverChars sv.data = some t2)
    (ae dr : Bool) (today : String) :
    do_bump_crate tomlVer tomlErr lockOk cargo changelog
      ⟨none, some cur, ae, dr⟩ today =
      (.error "New crate version matches current version; nothing to do", []) ∧
    do_bump_schema jsonErr true svText schemaChangelog schemaExists
      schemaContent ⟨none, some sv, ae, dr⟩ today =
      (.error "New schema version matches current version; nothing to do", []) := by
  have hread : read_cargo_version tomlVer cargo = .ok cur := by
    simp [read_cargo_version, hcv, validate_semver, hsem]
  have hreads : read_schema_version_file true svText = .ok sv := by
    simp [read_schema_version_file, hsv, validate_semver, hsem2]
  constructor
  · simp only [do_bump_crate, hread, resolve_next_version, validate_semver, hsem,
      update_cargo_version, if_pos rfl]
    simp
  · simp only [do_bump_schema, hreads, resolve_next_version, validate_semver, hsem2,
      if_pos rfl]
    simp

/-- Witness for C10 with both on-disk versions at `1.2.3`. -/
theorem c10_bump_same_version_no_writes_witness :
    do_bump_crate (fun _ => some "1.2.3") (fun _ => none) true [] []
      ⟨none, some "1.2.3", false, false⟩ "2025-06-01" =
      (.error "New crate version matches current version; nothing to do", []) ∧
    do_bump_schema (fun _ => none) true "1.2.3\n" [] (fun _ => false)
      (fun _ => "") ⟨none, some "1.2.3", false, false⟩ "2025-06-01" =
      (.error "New schema version matches current version; nothing to do", []) :=
  c10_bump_same_version_no_writes (fun _ => some "1.2.3") (fun _ => none) true
    [] [] [] (fun _ => none) (fun _ => false) (fun _ => "") "1.2.3\n"
    "1.2.3" "1.2.3" (1, 2, 3) (1, 2, 3) rfl (by decide) (by decide) (by decide)
    false false "2025-06-01"

/-! ## Tap release: source resolution and formula sync (`tap_release.py`) -/

/-- Python `requested_tarball_url`. -/
def requested_tarball_url (sourceRepo tag : String) : String :=
  "https://github.com/" ++ sourceRepo ++ "/archive/refs/tags/" ++ tag ++ ".tar.gz"

/-- Python `sanitized_tag_for_filename`:
`re.sub(r"[^A-Za-z0-9._-]", "_", tag)`. -/
def sanitized_tag_for_filename (tag : String) : String :=
  ⟨tag.data.map (fun c =>
    if c.isAlphanum || c = '.' || c = '_' || c = '-' then c else '_')⟩

/-- Python `default_source_json_path` (relative to the repository root,
`DEFAULT_SOURCE_DIR = ROOT/.homebrew`). -/
def default_source_json_path (tag : String) : String :=
  ".homebrew/source-" ++ sanitized_tag_for_filename tag ++ ".json"

/-- The text before the interpolated source URL in `formula_template`. -/
def formulaPrefix : String :=
  "class Envgen < Formula
  desc \"Generate .env files from declarative YAML schemas\"
  homepage \"https://github.com/smorinlabs/envgen\"
  url \""

/-- The text between the source URL and the sha256 in `formula_template`. -/
def formulaMid : String := "\"
  sha256 \""

/-- The text after the sha256 in `formula_template` (the `{{`/`}}` of the
Python f-string are literal braces). -/
def formulaSuffix : String :=
  "\"
  license \"MIT\"
  head \"https://github.com/smorinlabs/envgen.git\", branch: \"main\"

  depends_on \"rust\" => :build

  def install
    system \"cargo\", \"install\", *std_cargo_args
  end

  test do
    (testpath/\"envgen.yaml\").write <<~YAML
      schema_version: \"2\"
      metadata:
        description: \"Homebrew test schema\"
        destination:
          local: \".env.local\"
      environments:
        local: \x7b\x7d
      sources: \x7b\x7d
      variables:
        APP_NAME:
          description: \"App name\"
          source: static
          values:
            local: \"envgen\"
    YAML

    system bin/\"envgen\", \"check\", \"-c\", \"envgen.yaml\"
    system bin/\"envgen\", \"pull\", \"-c\", \"envgen.yaml\", \"-e\", \"local\", \"--force\"
    assert_match \"APP_NAME=envgen\", (testpath/\".env.local\").read
    assert_match version.to_s, shell_output(\"#\x7bbin\x7d/envgen --version\")
  end
end
"

/-- Python `formula_template`. -/
def formula_template (source_url sha256 : String) : String :=
  formulaPrefix ++ source_url ++ formulaMid ++ sha256 ++ formulaSuffix

/-- The source-metadata record (`read_source_metadata` requires the five
fields `tag`, `version`, `requested_url`, `sha256`, `download_path`;
`resolved_url` and the rest also appear in the sidecar). -/
structure SourceMeta where
  tag : String
  version : String
  requested_url : String
  resolved_url : String
  sha256 : String
  size_bytes : Nat
  download_path : String

/-- Python `do_sync_formula`.  `sourceJsonArg` carries the `--source-json`
path together with the outcome of `read_source_metadata` on it (reading
and field validation abstracted into the `Except`); `existingFormula` is
the formula file's current content, `none` when the file does not exist.
Returns the `changed` flag that the function prints. -/
def do_sync_formula (tag0 formulaPath sourceRepo : String)
    (sourceJsonArg : Option (String × Except String SourceMeta))
    (sha256Arg : Option String) (dryRun : Bool)
    (existingFormula : Option String) :
    (Except String Bool) × List FileWrite :=
  let tag := pyStrip tag0
  match parse_tag tag with
  | .error e => (.error e, [])
  | .ok _ =>
    match (match sourceJsonArg with
      | some (_, .error e) =>
        (Except.error e : Except String (String × String))
      | some (path, .ok m) =>
        if m.tag ≠ tag then
          Except.error ("Source metadata tag mismatch: expected " ++ tag ++
            ", found " ++ m.tag ++ " in " ++ path)
        else Except.ok (m.requested_url, m.sha256)
      | none =>
        match sha256Arg with
        | none => Except.error "Provide either --source-json or --sha256"
        | some s => Except.ok (requested_tarball_url sourceRepo tag, s)) with
    | .error e => (.error e, [])
    | .ok (source_url, sha) =>
      let newContent := formula_template source_url sha
      let oldContent := existingFormula.getD ""
      let changed : Bool := oldContent ≠ newContent
      if dryRun then (.ok changed, [])
      else (.ok changed, [FileWrite.directW formulaPath newContent])

/-- Python `download_tarball_with_retries`, with the network summarized by
the oracle `outcome`: the final URL and byte size when some attempt
succeeds, or the last error when all `attempts` attempts fail (the retry
loop and its sleeps produce exactly these two outcomes). -/
def download_tarball_with_retries (attempts : Nat)
    (outcome : Except String (String × Nat)) : Except String (String × Nat) :=
  match outcome with
  | .ok x => .ok x
  | .error e =>
    .error ("Failed to download source tarball after " ++ natStr attempts ++
      " attempts: " ++ e)

/-- The Publication State sidecar payload written by `do_resolve_source`
(fields in the `sort_keys=True` order of the JSON dump). -/
structure SourcePayload where
  created_at_utc : String
  download_path : String
  requested_url : String
  resolved_url : String
  sha256 : String
  size_bytes : Nat
  source_repo : String
  tag : String
  version : String

/-- Python `write_json_atomic` (`json.dumps(..., indent=2, sort_keys=True)`
is the external serializer, the oracle `renderJson`): a temp-file write
plus rename. -/
def write_json_atomic (renderJson : SourcePayload → String)
    (path : String) (data : SourcePayload) : List FileWrite :=
  [.atomicW path (renderJson data)]

/-- Python `do_resolve_source` (stdout prints and hint emission omitted).
`sha256Oracle` is the hash of the downloaded bytes, `createdAt` the UTC
timestamp, both external inputs. -/
def do_resolve_source (tag0 sourceRepo sourceDir : String)
    (outJson : Option String) (attempts : Nat)
    (outcome : Except String (String × Nat)) (sha256Oracle createdAt : String)
    (renderJson : SourcePayload → String) :
    (Except String Unit) × List FileWrite :=
  let tag := pyStrip tag0
  match parse_tag tag with
  | .error e => (.error e, [])
  | .ok version =>
    let outputJson := outJson.getD (default_source_json_path tag)
    let downloadPath := sourceDir ++ "/envgen-" ++ version ++ ".tar.gz"
    let requestedUrl := requested_tarball_url sourceRepo tag
    match download_tarball_with_retries attempts outcome with
    | .error e => (.error e, [])
    | .ok (resolvedUrl, size) =>
      (.ok (), write_json_atomic renderJson outputJson
        ⟨createdAt, downloadPath, requestedUrl, resolvedUrl, sha256Oracle,
          size, sourceRepo, tag, version⟩)

/-! ## Claim C1: sync-formula write behaviour -/

set_option maxRecDepth 8192 in
/-- Claim C1 counterexample: with the on-disk formula already equal to the
rendered text and `--dry-run` absent, the claim says the stage performs no
write; but the code's non-dry-run branch calls `write_text`
unconditionally, so the write happens even though `changed` is `false`. -/
theorem c1_sync_writes_when_unchanged_cex :
    do_sync_formula "v1.2.3" "Formula/envgen.rb" "smorinlabs/envgen" none
      (some "abc123") false
      (some (formula_template
        (requested_tarball_url "smorinlabs/envgen" "v1.2.3") "abc123")) =
      (.ok false,
        [FileWrite.directW "Formula/envgen.rb"
          (formula_template
            (requested_tarball_url "smorinlabs/envgen" "v1.2.3") "abc123")]) := by
  rfl

/-- Claim C1 amended: a non-dry-run sync-formula always writes the rendered
formula text, whether or not it differs from the existing file; the
comparison with the on-disk content only feeds the reported `changed` flag
(`true` exactly when they differ), so the stage is idempotent in the
resulting file content but not write-free; a dry run never writes. -/
theorem c1_sync_formula_amended (tag0 formulaPath sourceRepo sha : String)
    (v : String) (hparse : parse_tag (pyStrip tag0) = .ok v)
    (ex : Option String) :
    (do_sync_formula tag0 formulaPath sourceRepo none (some sha) false ex =
      (.ok (decide (ex.getD "" ≠
          formula_template (requested_tarball_url sourceRepo (pyStrip tag0)) sha)),
        [FileWrite.directW formulaPath
          (formula_template (requested_tarball_url sourceRepo (pyStrip tag0)) sha)])) ∧
    (do_sync_formula tag0 formulaPath sourceRepo none (some sha) true ex =
      (.ok (decide (ex.getD "" ≠
          formula_template (requested_tarball_url sourceRepo (pyStrip tag0)) sha)),
        [])) ∧
    (∀ (path : String) (m : SourceMeta), m.tag = pyStrip tag0 →
      do_sync_formula tag0 formulaPath sourceRepo (some (path, .ok m)) none false ex =
        (.ok (decide (ex.getD "" ≠ formula_template m.requested_url m.sha256)),
          [FileWrite.directW formulaPath
            (formula_template m.requested_url m.sha256)])) := by
  refine ⟨?_, ?_, ?_⟩
  · simp [do_sync_formula, hparse]
  · simp [do_sync_formula, hparse]
  · intro path m hm
    simp [do_sync_formula, hparse, hm]

/-- Witness for the amended C1 at the tag `v1.2.3`. -/
theorem c1_sync_formula_amended_witness :
    do_sync_formula "v1.2.3" "Formula/envgen.rb" "smorinlabs/envgen" none
      (some "abc123") true none =
      (.ok (decide ((none : Option String).getD "" ≠
          formula_template
            (requested_tarball_url "smorinlabs/envgen" (pyStrip "v1.2.3"))
            "abc123")), []) :=
  (c1_sync_formula_amended "v1.2.3" "Formula/envgen.rb" "smorinlabs/envgen"
    "abc123" "1.2.3" (by rfl) none).2.1

/-! ## Claim C2: the write-to-temp-then-rename discipline -/

theorem update_cargo_writes_atomic (tomlVer tomlErr : List String → Option String)
    (cargo : List String) (newV : String) (dr : Bool) :
    ((update_cargo_version tomlVer tomlErr cargo newV dr).2).all isAtomicOrUnlink
      = true := by
  simp only [update_cargo_version]
  repeat' split
  all_goals simp [write_atomic, isAtomicOrUnlink]

theorem rotate_op_writes_atomic (path : String) (lines : List String)
    (newV : String) (defaults : List String) (ae dr : Bool) (today : String)
    (mo : Option String) :
    ((rotate_changelog_op path lines newV defaults ae dr today mo).2).all
      isAtomicOrUnlink = true := by
  simp only [rotate_changelog_op]
  repeat' split
  all_goals simp [write_atomic, isAtomicOrUnlink]

theorem lockfile_writes_nil (lockOk dr : Bool) :
    (sync_cargo_lockfile lockOk dr).2 = [] := by
  simp only [sync_cargo_lockfile]
  repeat' split
  all_goals rfl

theorem do_bump_crate_writes_atomic (tomlVer tomlErr : List String → Option String)
    (lockOk : Bool) (cargo changelog : List String) (args : BumpArgs)
    (today : String) :
    ((do_bump_crate tomlVer tomlErr lockOk cargo changelog args today).2).all
      isAtomicOrUnlink = true := by
  cases hr : read_cargo_version tomlVer cargo with
  | error e => simp [do_bump_crate, hr]
  | ok cur =>
    cases hn : resolve_next_version cur args.level args.version with
    | error e => simp [do_bump_crate, hr, hn]
    | ok nextV =>
      have h1 := update_cargo_writes_atomic tomlVer tomlErr cargo nextV args.dryRun
      have h2 := rotate_op_writes_atomic "CHANGELOG.md" changelog nextV
        CRATE_SECTIONS args.allowEmptyChangelog args.dryRun today
        (some (crateMakeOverride args.level args.version))
      have h3 := lockfile_writes_nil lockOk args.dryRun
      cases hu : update_cargo_version tomlVer tomlErr cargo nextV args.dryRun with
      | mk ur w1 =>
        rw [hu] at h1
        simp only at h1
        cases ur with
        | error e => simpa [do_bump_crate, hr, hn, hu] using h1
        | ok p =>
          cases hro : rotate_changelog_op "CHANGELOG.md" changelog nextV
              CRATE_SECTIONS args.allowEmptyChangelog args.dryRun today
              (some (crateMakeOverride args.level args.version)) with
          | mk rr w2 =>
            rw [hro] at h2
            simp only at h2
            cases rr with
            | error e =>
              simp [do_bump_crate, hr, hn, hu, hro, List.all_append, h1, h2]
            | ok _ =>
              cases hl : sync_cargo_lockfile lockOk args.dryRun with
              | mk lr w3 =>
                rw [hl] at h3
                simp only at h3
                subst h3
                cases lr with
                | error e =>
                  simp [do_bump_crate, hr, hn, hu, hro, hl, List.all_append, h1, h2]
                | ok _ =>
                  simp [do_bump_crate, hr, hn, hu, hro, hl, List.all_append, h1, h2]

theorem do_bump_schema_writes_atomic (jsonErr : String → Option String)
    (svE : Bool) (svT : String) (schemaChangelog : List String)
    (sEx : String → Bool) (sCont : String → String) (args : BumpArgs)
    (today : String) :
    ((do_bump_schema jsonErr svE svT schemaChangelog sEx sCont args today).2).all
      isAtomicOrUnlink = true := by
  cases hr : read_schema_version_file svE svT with
  | error e => simp [do_bump_schema, hr]
  | ok old =>
    cases hn : resolve_next_version old args.level args.version with
    | error e => simp [do_bump_schema, hr, hn]
    | ok new =>
      have h2 := rotate_op_writes_atomic "SCHEMA_CHANGELOG.md" schemaChangelog new
        SCHEMA_SECTIONS args.allowEmptyChangelog args.dryRun today
        (some (schemaMakeOverride args.level args.version))
      by_cases heq : old = new
      · subst heq
        simp only [do_bump_schema, hr, hn]
        simp
      · cases hup : update_schema_changelog_version
            (sCont ("schemas/envgen.schema.v" ++ old ++ ".json")) new jsonErr with
        | error e =>
          simp [do_bump_schema, hr, hn, heq, hup]
          repeat' split
          all_goals simp
        | ok upd =>
          cases hro : rotate_changelog_op "SCHEMA_CHANGELOG.md" schemaChangelog new
              SCHEMA_SECTIONS args.allowEmptyChangelog args.dryRun today
              (some (schemaMakeOverride args.level args.version)) with
          | mk rr w =>
            rw [hro] at h2
            simp only at h2
            simp only [do_bump_schema, hr, hn, heq, hup, hro]
            repeat' split
            all_goals
              simp_all [List.all_append, write_atomic, isAtomicOrUnlink]

theorem do_resolve_source_writes_atomic (tag0 sourceRepo sourceDir : String)
    (outJson : Option String) (attempts : Nat)
    (outcome : Except String (String × Nat)) (sha256Oracle createdAt : String)
    (renderJson : SourcePayload → String) :
    ((do_resolve_source tag0 sourceRepo sourceDir outJson attempts outcome
      sha256Oracle createdAt renderJson).2).all isAtomicOrUnlink = true := by
  simp only [do_resolve_source]
  repeat' split
  all_goals simp [write_json_atomic, isAtomicOrUnlink]

theorem do_sync_formula_writes_direct (tag0 formulaPath sourceRepo : String)
    (sj : Option (String × Except String SourceMeta)) (sha : Option String)
    (dr : Bool) (ex : Option String) :
    ((do_sync_formula tag0 formulaPath sourceRepo sj sha dr ex).2).all
      (fun w => match w with
        | FileWrite.directW p _ => p == formulaPath
        | _ => false) = true := by
  simp only [do_sync_formula]
  repeat' split
  all_goals simp

/-- Claim C2 counterexample: the claim says every file write goes through a
temporary file plus rename; but the non-dry-run formula write of
`do_sync_formula` is a plain `write_text` straight to the target path, so
its write log is not all-atomic. -/
theorem c2_formula_write_not_atomic_cex :
    ((do_sync_formula "v1.2.3" "Formula/envgen.rb" "smorinlabs/envgen" none
      (some "abc123") false none).2).all isAtomicOrUnlink = false := by
  rfl

/-- Claim C2 amended: every write the bump flows perform (manifest,
changelogs, schema artifact, schema version file) and the publication-state
sidecar write of resolve-source go through `write_atomic` /
`write_json_atomic` (temp file, then rename into place; the old schema
artifact is removed with `unlink`); the formula file is the exception — the
sync-formula stage writes it directly with `write_text`, not via a
temporary file. -/
theorem c2_write_discipline_amended :
    (∀ (tomlVer tomlErr : List String → Option String) (lockOk : Bool)
      (cargo changelog : List String) (args : BumpArgs) (today : String),
      ((do_bump_crate tomlVer tomlErr lockOk cargo changelog args today).2).all
        isAtomicOrUnlink = true) ∧
    (∀ (jsonErr : String → Option String) (svE : Bool) (svT : String)
      (schemaChangelog : List String) (sEx : String → Bool)
      (sCont : String → String) (args : BumpArgs) (today : String),
      ((do_bump_schema jsonErr svE svT schemaChangelog sEx sCont args today).2).all
        isAtomicOrUnlink = true) ∧
    (∀ (tag0 sourceRepo sourceDir : String) (outJson : Option String)
      (attempts : Nat) (outcome : Except String (String × Nat))
      (sha256Oracle createdAt : String) (renderJson : SourcePayload → String),
      ((do_resolve_source tag0 sourceRepo sourceDir outJson attempts outcome
        sha256Oracle createdAt renderJson).2).all isAtomicOrUnlink = true) ∧
    (∀ (tag0 formulaPath sourceRepo : String)
      (sj : Option (String × Except String SourceMeta)) (sha : Option String)
      (dr : Bool) (ex : Option String),
      ((do_sync_formula tag0 formulaPath sourceRepo sj sha dr ex).2).all
        (fun w => match w with
          | FileWrite.directW p _ => p == formulaPath
          | _ => false) = true) :=
  ⟨do_bump_crate_writes_atomic, do_bump_schema_writes_atomic,
    do_resolve_source_writes_atomic, do_sync_formula_writes_direct⟩

/-! ## Process-level error handling (`main` of both scripts)

`version_bump.py`'s `main` catches only `BumpError`; `tap_release.py`'s
`main` catches `TapReleaseError` and, in a second branch, urllib's
`HTTPError`/`URLError`.  Any other runtime exception — e.g. the
`json.JSONDecodeError` that `json.loads` raises inside
`get_existing_pr_url` when the `gh` CLI prints malformed output — escapes
`main` (the interpreter then prints a traceback).  The error channel
therefore distinguishes classified failures (`TapFail.err`, the
`TapReleaseError` message) from unclassified exceptions (`TapFail.exc`). -/

inductive PyExc where
  | jsonDecode
  | urlError (msg : String)
deriving DecidableEq

inductive TapFail where
  | err (msg : String)
  | exc (e : PyExc)
deriving DecidableEq

/-- Outcome channel of the tap-release commands. -/
abbrev TapM (α : Type) := Except TapFail α

/-- Result of one `subprocess.run(..., check=False)` call. -/
structure RunRes where
  rc : Nat
  out : String
  errout : String

/-- Python `run_command` of `tap_release.py`; the failure message carries
the joined command and the stripped stderr/stdout or the exit code. -/
def run_command (run : List String → RunRes) (args : List String)
    (allowNonzero : Bool) : TapM RunRes :=
  let r := run args
  if r.rc ≠ 0 ∧ ¬allowNonzero then
    .error (.err ("Command failed: " ++ String.intercalate " " args ++ "\n" ++
      (if pyStrip r.errout ≠ "" then pyStrip r.errout
       else if pyStrip r.out ≠ "" then pyStrip r.out
       else "exit code " ++ natStr r.rc)))
  else .ok r

/-- One record of the `gh pr list --json number,url` output. -/
structure PrRec where
  number : Nat
  url : String

/-- Python `get_existing_pr_url`.  `jsonLoads` is the external JSON parser
(`none` = `json.JSONDecodeError`, which this function does not catch). -/
def get_existing_pr_url (run : List String → RunRes)
    (jsonLoads : String → Option (List PrRec)) (tapRepo branch : String) :
    TapM (Option String) :=
  match run_command run ["gh", "pr", "list", "--repo", tapRepo, "--head",
      branch, "--json", "number,url", "--limit", "1"] false with
  | .error e => .error e
  | .ok r =>
    match jsonLoads r.out with
    | none => .error (.exc .jsonDecode)
    | some [] => .ok none
    | some (p :: _) => .ok (some p.url)

/-- Arguments of the `open-pr` subcommand. -/
structure OpenPrArgs where
  tag : String
  tapRepo : String
  tapRepoDir : String
  formulaPath : String
  baseBranch : String
  dryRun : Bool

/-- Python `do_open_pr` (stdout prints and hint emission omitted).
`dirExists`, `formulaExists` and `ghPresent` are the three existence
checks; `run` is the subprocess oracle. -/
def do_open_pr (run : List String → RunRes)
    (jsonLoads : String → Option (List PrRec))
    (dirExists formulaExists ghPresent : Bool) (args : OpenPrArgs) :
    TapM Unit := do
  let tag := pyStrip args.tag
  let version ←
    match parse_tag tag with
    | .error e => throw (TapFail.err e)
    | .ok v => pure v
  if !dirExists then
    throw (.err ("Tap repo directory does not exist: " ++ args.tapRepoDir))
  else if !formulaExists then
    throw (.err ("Formula file does not exist: " ++ args.tapRepoDir ++ "/" ++
      args.formulaPath))
  else if !ghPresent then
    throw (.err "`gh` CLI is required to open or update tap pull requests")
  else
    let branch := "envgen-" ++ version
    let title := "envgen " ++ version
    let body := "Update envgen formula to " ++ tag ++ ".\n\n- Source tag: `" ++
      tag ++ "`\n- Source tarball: `" ++
      requested_tarball_url "smorinlabs/envgen" tag ++ "`"
    let _ ← run_command run ["git", "fetch", "origin", args.baseBranch] false
    let remoteBranch ←
      run_command run ["git", "ls-remote", "--heads", "origin", branch] false
    let branchExists := pyStrip remoteBranch.out ≠ ""
    let startRef := if branchExists then "origin/" ++ branch
      else "origin/" ++ args.baseBranch
    let _ ← run_command run ["git", "checkout", "-B", branch, startRef] false
    let _ ← run_command run ["git", "add", args.formulaPath] false
    let staged ← run_command run ["git", "diff", "--cached", "--quiet"] true
    let hasChanges := staged.rc ≠ 0
    if hasChanges then
      let _ ← run_command run ["git", "commit", "-m", "envgen " ++ version] false
      if !args.dryRun then
        let _ ← run_command run
          ["git", "push", "--force-with-lease", "origin", branch] false
        pure ()
      else pure ()
    else pure ()
    if args.dryRun then
      pure ()
    else
      match ← get_existing_pr_url run jsonLoads args.tapRepo branch with
      | some prUrl =>
        let _ ← run_command run ["gh", "pr", "edit", prUrl, "--repo",
          args.tapRepo, "--title", title, "--body", body] false
        pure ()
      | none =>
        let createRes ← run_command run ["gh", "pr", "create", "--repo",
          args.tapRepo, "--base", args.baseBranch, "--head", branch,
          "--title", title, "--body", body] false
        let created := pyStrip createRes.out
        if created = "" then
          let _ ← get_existing_pr_url run jsonLoads args.tapRepo branch
          pure ()
        else pure ()

/-- Result of one whole command invocation: a normal exit with the lines
printed to stderr, or an exception that escaped `main` (the interpreter
then prints a traceback and exits non-zero, outside the script's single
error type). -/
inductive ExecRes where
  | exit (code : Nat) (stderrLines : List String)
  | uncaught (e : PyExc)
deriving DecidableEq

/-- Python `main` of `tap_release.py`: return 0 on success; catch
`TapReleaseError` and print `ERROR: ...`, returning 1; catch urllib errors
and print `ERROR: network failure: ...`, returning 1; anything else
escapes. -/
def tap_main (r : TapM Unit) : ExecRes :=
  match r with
  | .ok _ => .exit 0 []
  | .error (.err m) => .exit 1 ["ERROR: " ++ m]
  | .error (.exc (.urlError m)) => .exit 1 ["ERROR: network failure: " ++ m]
  | .error (.exc .jsonDecode) => .uncaught .jsonDecode

/-- Python `main` of `version_bump.py`: 0 on success, otherwise catch
`BumpError` and print `ERROR: ...` to stderr, returning 1. -/
def vb_main (r : Except String Unit) : ExecRes :=
  match r with
  | .ok _ => .exit 0 []
  | .error m => .exit 1 ["ERROR: " ++ m]

/-- Whether an invocation ended in a normal exit (as opposed to an escaped
exception). -/
def isClassifiedExit : ExecRes → Bool
  | .exit _ _ => true
  | .uncaught _ => false

/-! ## Claim C9: exit codes and the single error type -/

/-- Claim C9 counterexample: an `open-pr` invocation in which every git/gh
subprocess exits 0 but `gh pr list` prints non-JSON output.  The
`json.loads` inside `get_existing_pr_url` raises `JSONDecodeError`, which
neither `except` branch of `main` catches: this failure does not funnel
through the script's single user-facing error type. -/
theorem c9_unclassified_exception_cex :
    tap_main (do_open_pr (fun _ => ⟨0, "gobbledygook", ""⟩) (fun _ => none)
      true true true
      ⟨"v1.2.3", "smorinlabs/homebrew-tap", "/tap", "Formula/envgen.rb",
        "main", false⟩) = .uncaught .jsonDecode ∧
    isClassifiedExit (.uncaught .jsonDecode) = false := by
  exact ⟨rfl, rfl⟩

/-- Claim C9 amended: every invocation exits 0 on success; every
*classified* failure exits 1 with its human-readable message printed to
stderr — `version_bump.py` funnels these through the single `BumpError`
type, while `tap_release.py` additionally catches network errors
(`HTTPError`/`URLError`) as a second kind, also printed to stderr with exit
1; an unclassified runtime exception (e.g. malformed JSON from the
code-review CLI) escapes the handler instead of going through the single
error type. -/
theorem c9_exit_codes_amended :
    (vb_main (.ok ()) = .exit 0 []) ∧
    (∀ m : String, vb_main (.error m) = .exit 1 ["ERROR: " ++ m]) ∧
    (tap_main (.ok ()) = .exit 0 []) ∧
    (∀ m : String, tap_main (.error (.err m)) = .exit 1 ["ERROR: " ++ m]) ∧
    (∀ m : String, tap_main (.error (.exc (.urlError m))) =
      .exit 1 ["ERROR: network failure: " ++ m]) ∧
    (tap_main (.error (.exc .jsonDecode)) = .uncaught .jsonDecode) :=
  ⟨rfl, fun _ => rfl, rfl, fun _ => rfl, fun _ => rfl, rfl⟩

end Envgen
